import Mathlib

/-!
# Verification of the rust7tv emote ingestion and tiered-cache service

This file gives a shallow embedding, in Lean 4, of the core of the rust7tv
repository: the canonical-image selection (`select_best_image`), the
per-record ingestion pipeline (`process_single_emote`,
`process_emotes_batch`), the blob-storage service (`upload_blob`,
`deleteBlobsUnder`, `get_blob_content`), the cache and relational ledger
glue, and the HTTP route handlers (`search_emotes_handler`,
`sync_trending_handler`, `synced_trending_emotes_handler`,
`sync_user_emotes_handler`, `return_paginated_response`).

Modelling conventions:
* All outbound I/O (the 7TV catalog, image downloads, Azure round trips,
  Redis and Postgres connections) is captured by explicit oracle
  parameters (`NetEnv`, `SyncEnv`, `ReadEnv`, `SearchEnv`): a `Bool` or
  `Option` result stands for the success/failure of the corresponding
  call in the source.
* Machine integers (`i32`, `i64`, `usize`) are modelled as `Int`/`Nat`;
  the casts `as i32` / `as usize` are modelled by `i32Cast` / `usizeCast`
  with explicit wrap-around.
* Byte strings that the code only moves around opaquely (image payloads,
  serialized JSON) are modelled by the inductive `BlobData` / `CacheVal`:
  serde serialization round-trips into the matching constructor, and a
  deserialization into the wrong type fails, exactly as in the source.
* `stream::buffer_unordered(5)` is linearized into a sequential fold for
  the state-transformer embedding (`process_emotes_batch`); its
  concurrency structure (bounded width, unordered completion) is modelled
  separately and explicitly by `runBufferUnordered`.
-/

/-- Rust's `Display` for `bool` as used by `format!("{}", b)`. -/
def boolStr (b : Bool) : String := if b then "true" else "false"

/-- Decimal rendering of an integer, as Rust's `Display` for the integer
types produces it. -/
def intStr (i : Int) : String := toString i

/-- The cast `as i32` applied to a nonnegative quantity (a `usize` length):
wraps modulo 2^32 into the signed range. -/
def i32Cast (n : Nat) : Int := ((n % 2 ^ 32 : Nat) : Int) - (if n % 2 ^ 32 < 2 ^ 31 then 0 else 2 ^ 32)

/-- The cast `as usize` applied to an `i64`: two's-complement wrap modulo 2^64. -/
def usizeCast (i : Int) : Nat := (i % 2 ^ 64).toNat

/-- String prefix test, used to model the Azure blob-listing prefix filter. -/
def strStartsWith (pre s : String) : Bool := pre.data.isPrefixOf s.data

/-- `Image` (src/src/services/seventv/mod.rs): one image variant of an
emote as returned by the catalog. Numeric fields are `i32` in the source. -/
structure Image where
  url : String
  mime : String
  size : Int
  scale : Int
  width : Int
  frame_count : Int
deriving DecidableEq

/-- MIME preference used by `select_best_image`: position in the
`preferred_mimes` array (best first), `100` when absent. -/
def mimeScore (m : String) : Nat :=
  if m = "image/webp" then 0
  else if m = "image/gif" then 1
  else if m = "image/avif" then 2
  else if m = "image/png" then 3
  else 100

/-- Rust `Ord::cmp` on `i32`, specialised to our `Int` model. -/
def cmpInt (a b : Int) : Ordering :=
  if a < b then .lt else if a = b then .eq else .gt

/-- Rust `Ord::cmp` on `usize`/score values. -/
def cmpNat (a b : Nat) : Ordering :=
  if a < b then .lt else if a = b then .eq else .gt

/-- Rust `Ord::cmp` on `bool` (`false < true`). -/
def cmpBool (a b : Bool) : Ordering :=
  if a = b then .eq else if a then .gt else .lt

/-- The animation test `frame_count > 1` from `select_best_image` and
`process_single_emote`. -/
def animFlag (v : Image) : Bool := v.frame_count > 1

/-- The comparator closure passed to `max_by` in `select_best_image`
(src/src/services/seventv/mod.rs lines 483-500): animation parity first,
then MIME preference (lower score is better, hence the swapped compare),
then scale. -/
def cmpImage (a b : Image) : Ordering :=
  if animFlag a ≠ animFlag b then cmpBool (animFlag a) (animFlag b)
  else if mimeScore a.mime ≠ mimeScore b.mime then cmpNat (mimeScore b.mime) (mimeScore a.mime)
  else cmpInt a.scale b.scale

/-- Rust's `Iterator::max_by`: folds the comparator over the list keeping
the current maximum, preferring the later element on ties. -/
def maxByLast (cmp : Image → Image → Ordering) : List Image → Option Image
  | [] => none
  | x :: xs => some (xs.foldl (fun acc y => if cmp acc y = .gt then acc else y) x)

/-- `select_best_image` (src/src/services/seventv/mod.rs lines 476-501). -/
def select_best_image (images : List Image) : Option Image :=
  if images.isEmpty then none else maxByLast cmpImage images

/-- Specification-facing MIME rank (higher is better):
`image/webp > image/gif > image/avif > image/png > anything else`. -/
def mimeRank (m : String) : Nat :=
  if m = "image/webp" then 4
  else if m = "image/gif" then 3
  else if m = "image/avif" then 2
  else if m = "image/png" then 1
  else 0

/-- The total preorder the specification describes for image selection:
animated status first, then MIME preference, then scale. -/
def imageKeyLE (a b : Image) : Prop :=
  (animFlag a = false ∧ animFlag b = true)
  ∨ (animFlag a = animFlag b ∧
      (mimeRank a.mime < mimeRank b.mime
        ∨ (mimeRank a.mime = mimeRank b.mime ∧ a.scale ≤ b.scale)))

instance (a b : Image) : Decidable (imageKeyLE a b) := by
  unfold imageKeyLE; infer_instance

theorem mimeScore_mimeRank (m1 m2 : String) :
    (mimeScore m1 < mimeScore m2 ↔ mimeRank m2 < mimeRank m1)
      ∧ (mimeScore m1 = mimeScore m2 ↔ mimeRank m1 = mimeRank m2) := by
  unfold mimeScore mimeRank
  split_ifs <;> exact ⟨by decide, by decide⟩

theorem cmpImage_not_gt_iff (a b : Image) : cmpImage a b ≠ .gt ↔ imageKeyLE a b := by
  unfold cmpImage imageKeyLE cmpBool cmpNat cmpInt
  have h1 := (mimeScore_mimeRank a.mime b.mime).1
  have h2 := (mimeScore_mimeRank a.mime b.mime).2
  have h3 := (mimeScore_mimeRank b.mime a.mime).1
  by_cases hA : animFlag a = animFlag b
  · simp only [hA, ne_eq, not_true_eq_false, if_false]
    by_cases hS : mimeScore a.mime = mimeScore b.mime
    · simp only [hS, ne_eq, not_true_eq_false, if_false]
      split_ifs with hlt heq <;> simp_all <;> omega
    · simp only [ne_eq, hS, not_false_eq_true, if_true]
      split_ifs with hlt heq <;> simp_all
  · simp only [ne_eq, hA, not_false_eq_true, if_true]
    cases ha : animFlag a <;> cases hb : animFlag b <;> simp_all

theorem imageKeyLE_refl (a : Image) : imageKeyLE a a := by
  unfold imageKeyLE
  right
  exact ⟨rfl, Or.inr ⟨rfl, le_refl _⟩⟩

theorem imageKeyLE_total (a b : Image) : imageKeyLE a b ∨ imageKeyLE b a := by
  unfold imageKeyLE
  cases ha : animFlag a <;> cases hb : animFlag b <;> simp <;> omega

theorem imageKeyLE_trans (a b c : Image) :
    imageKeyLE a b → imageKeyLE b c → imageKeyLE a c := by
  unfold imageKeyLE
  cases ha : animFlag a <;> cases hb : animFlag b <;> cases hc : animFlag c <;>
    simp <;> omega

theorem imageKeyLE_of_cmp_gt (a b : Image) (h : cmpImage a b = .gt) : imageKeyLE b a := by
  rcases imageKeyLE_total a b with hab | hba
  · exact absurd hab ((not_iff_not.mpr (cmpImage_not_gt_iff a b)).mp (by simp [h]))
  · exact hba

theorem maxByLast_foldl_spec (t : List Image) : ∀ acc : Image,
    (t.foldl (fun acc y => if cmpImage acc y = .gt then acc else y) acc) ∈ acc :: t
      ∧ ∀ v ∈ acc :: t,
          imageKeyLE v (t.foldl (fun acc y => if cmpImage acc y = .gt then acc else y) acc) := by
  induction t with
  | nil =>
    intro acc
    simp [imageKeyLE_refl]
  | cons y t ih =>
    intro acc
    simp only [List.foldl_cons]
    by_cases h : cmpImage acc y = .gt
    · rw [if_pos h]
      obtain ⟨hmem, hdom⟩ := ih acc
      constructor
      · rcases List.mem_cons.mp hmem with h1 | h1
        · exact List.mem_cons.mpr (Or.inl h1)
        · exact List.mem_cons.mpr (Or.inr (List.mem_cons.mpr (Or.inr h1)))
      · intro v hv
        rcases List.mem_cons.mp hv with hv1 | hv1
        · subst hv1
          exact hdom v (List.mem_cons.mpr (Or.inl rfl))
        · rcases List.mem_cons.mp hv1 with hv2 | hv2
          · subst hv2
            exact imageKeyLE_trans v acc _ (imageKeyLE_of_cmp_gt acc v h)
              (hdom acc (List.mem_cons.mpr (Or.inl rfl)))
          · exact hdom v (List.mem_cons.mpr (Or.inr hv2))
    · rw [if_neg h]
      obtain ⟨hmem, hdom⟩ := ih y
      constructor
      · rcases List.mem_cons.mp hmem with h1 | h1
        · exact List.mem_cons.mpr (Or.inr (List.mem_cons.mpr (Or.inl h1)))
        · exact List.mem_cons.mpr (Or.inr (List.mem_cons.mpr (Or.inr h1)))
      · intro v hv
        rcases List.mem_cons.mp hv with hv1 | hv1
        · subst hv1
          exact imageKeyLE_trans v y _ ((cmpImage_not_gt_iff v y).mp h)
            (hdom y (List.mem_cons.mpr (Or.inl rfl)))
        · exact hdom v hv1

theorem select_best_image_nonempty (l : List Image) (h : l ≠ []) :
    ∃ best, select_best_image l = some best ∧ best ∈ l ∧ ∀ v ∈ l, imageKeyLE v best := by
  cases l with
  | nil => exact absurd rfl h
  | cons x xs =>
    refine ⟨xs.foldl (fun acc y => if cmpImage acc y = .gt then acc else y) x, ?_, ?_, ?_⟩
    · simp [select_best_image, maxByLast]
    · exact (maxByLast_foldl_spec xs x).1
    · exact (maxByLast_foldl_spec xs x).2

/-- The three variants of the specification's worked ImageSelector example:
`[{webp,scale:1},{png,scale:1},{webp,scale:2}]`, all static. -/
def exampleVariants : List Image :=
  [ { url := "u1", mime := "image/webp", size := 0, scale := 1, width := 32, frame_count := 1 },
    { url := "u2", mime := "image/png", size := 0, scale := 1, width := 32, frame_count := 1 },
    { url := "u3", mime := "image/webp", size := 0, scale := 2, width := 64, frame_count := 1 } ]

/-- Embeds `char::is_alphanumeric` from the Rust standard library (the
Unicode `Alphabetic` property or general categories Nd/Nl/No). The table
is exhaustive on the Basic Latin and Latin-1 Supplement blocks (U+0000 to
U+00FF), which cover every character the theorems below evaluate; code
points above U+00FF (all outside the counterexamples used here) are
mapped to `false`. -/
def rustIsAlphanumeric (c : Char) : Bool :=
  let n := c.toNat
  (65 ≤ n && n ≤ 90) || (97 ≤ n && n ≤ 122) || (48 ≤ n && n ≤ 57)
    || n == 0xAA || n == 0xB5 || n == 0xBA
    || n == 0xB2 || n == 0xB3 || n == 0xB9
    || (0xBC ≤ n && n ≤ 0xBE)
    || (0xC0 ≤ n && n ≤ 0xD6) || (0xD8 ≤ n && n ≤ 0xF6) || (0xF8 ≤ n && n ≤ 0xFF)

/-- The per-character keep test of the display-name sanitizer in
`process_single_emote`: `c.is_alphanumeric() || c == '.' || c == '-' ||
c == '_' || c == ' '`. -/
def sanitizeKeep (c : Char) : Bool :=
  rustIsAlphanumeric c || c = '.' || c = '-' || c = '_' || c = ' '

/-- The display-name sanitizer from `process_single_emote`
(src/src/services/seventv/mod.rs lines 454-456): characters failing
`sanitizeKeep` are replaced with `'_'`. -/
def sanitizeName (name : String) : String :=
  String.mk (name.data.map (fun c => if sanitizeKeep c then c else '_'))

/-- The character class `[A-Za-z0-9._- ]` that the specification claims
the sanitizer guarantees. -/
def inAsciiClass (c : Char) : Bool :=
  let n := c.toNat
  (65 ≤ n && n ≤ 90) || (97 ≤ n && n ≤ 122) || (48 ≤ n && n ≤ 57)
    || c = '.' || c = '_' || c = '-' || c = ' '

/-- Output extension mapping from `process_single_emote`
(src/src/services/seventv/mod.rs lines 445-450). -/
def extensionFor (mime : String) : String :=
  if mime = "image/webp" then ".webp"
  else if mime = "image/gif" then ".gif"
  else if mime = "image/avif" then ".avif"
  else ".png"

/-- `MainConnection` (src/src/services/seventv/mod.rs). -/
structure MainConnection where
  platform_display_name : String
deriving DecidableEq

/-- `Owner` (src/src/services/seventv/mod.rs). -/
structure Owner where
  main_connection : Option MainConnection
deriving DecidableEq

/-- `TrendingFile` (src/src/services/seventv/mod.rs). -/
structure TrendingFile where
  name : String
  format : String
  width : Int
  height : Int
deriving DecidableEq

/-- `TrendingHost` (src/src/services/seventv/mod.rs). -/
structure TrendingHost where
  url : String
  files : List TrendingFile
deriving DecidableEq

/-- `Emote` (src/src/services/seventv/mod.rs): one raw catalog record. -/
structure Emote where
  id : String
  default_name : Option String
  name : Option String
  owner : Option Owner
  images : Option (List Image)
  host : Option TrendingHost
  animated : Option Bool
deriving DecidableEq

/-- `EmoteResponse` (src/src/models/mod.rs): the canonical produced asset
record. -/
structure EmoteResponse where
  file_name : String
  url : String
  emote_id : String
  emote_name : String
  owner : Option String
  animated : Option Bool
  scale : Option Int
  mime : Option String
deriving DecidableEq

/-- `SearchResponse` (src/src/models/mod.rs): the result envelope of every
route. `processing_time` is `Option<f64>` in the source but every
construction sets it to `None`, so the payload type is elided to `Unit`. -/
structure SearchResponse where
  success : Bool
  total_found : Int
  emotes : List EmoteResponse
  message : Option String
  cached : Option Bool
  processing_time : Option Unit
  page : Option Int
  total_pages : Option Int
  results_per_page : Option Int
  has_next_page : Option Bool
deriving DecidableEq

/-- The serialized payloads that flow through the blob archive: raw image
bytes, or the JSON manifest (a serialized `Vec<EmoteResponse>`). -/
inductive BlobData where
  | bytes (content : List Nat)
  | json (payload : List EmoteResponse)
deriving DecidableEq

/-- One stored blob: payload plus content type. -/
structure BlobRec where
  data : BlobData
  contentType : String
deriving DecidableEq

/-- `StorageService` state (src/src/services/storage/mod.rs): `client` is
`true` iff the Azure client was initialized (`Option<Arc<...>>` is
`Some`); `blobs` is the container's contents keyed by blob name. -/
structure StorageState where
  client : Bool
  account_name : String
  container_name : String
  blobs : List (String × BlobRec)
deriving DecidableEq

/-- The public URL format used by `upload_blob`. -/
def blobUrl (st : StorageState) (blob_name : String) : String :=
  "https://" ++ st.account_name ++ ".blob.core.windows.net/" ++ st.container_name ++ "/" ++ blob_name

/-- Whether a blob exists, i.e. whether `get_properties` succeeds for it
(transient faults on the existence probe are not modelled; the source
treats any probe error as absence and proceeds to upload). -/
def blobPresent (st : StorageState) (name : String) : Bool :=
  (st.blobs.lookup name).isSome

/-- `StorageService::upload_blob` (src/src/services/storage/mod.rs lines
61-88): error when unconfigured; if the blob exists, skip the PUT and
return its URL; otherwise PUT (the `putOk` oracle is the network outcome
of `put_block_blob`) and return the URL. -/
def upload_blob (putOk : Bool) (st : StorageState) (data : BlobData)
    (blob_name content_type : String) : Except String (String × StorageState) :=
  if st.client = false then .error "Azure Storage not initialized"
  else if blobPresent st blob_name then .ok (blobUrl st blob_name, st)
  else if putOk then
    .ok (blobUrl st blob_name,
      { st with blobs := st.blobs ++ [(blob_name, ⟨data, content_type⟩)] })
  else .error "put_block_blob failed"

/-- `StorageService::delete_blobs_by_prefix` (src/src/services/storage/mod.rs
lines 90-115): error when unconfigured; otherwise list-and-delete every
blob whose name starts with the given string. The `listOk` oracle is the
outcome of the listing/delete round trips; a failing round trip is
modelled as failing before any deletion. -/
def deleteBlobsUnder (listOk : Bool) (st : StorageState) (pre : String) :
    Except String StorageState :=
  if st.client = false then .error "Azure Storage not initialized"
  else if listOk then
    .ok { st with blobs := st.blobs.filter (fun b => !(strStartsWith pre b.1)) }
  else .error "list_blobs failed"

/-- `StorageService::get_blob_content` (src/src/services/storage/mod.rs
lines 117-127). -/
def get_blob_content (st : StorageState) (blob_name : String) : Except String BlobData :=
  if st.client = false then .error "Azure Storage not initialized"
  else
    match st.blobs.lookup blob_name with
    | some b => .ok b.data
    | none => .error "blob not found"

/-- Repeatedly strip a suffix, with fuel (each strip removes at least one
character, so `l.length` fuel is enough): Rust's `str::trim_end_matches`. -/
def trimEndChars (pat : List Char) : Nat → List Char → List Char
  | 0, l => l
  | fuel + 1, l =>
    if pat ≠ [] ∧ pat.isSuffixOf l then trimEndChars pat fuel (l.take (l.length - pat.length))
    else l

/-- `str::trim_end_matches` as used on file names in `process_single_emote`. -/
def trimEndMatches (s pat : String) : String :=
  String.mk (trimEndChars pat.data s.data.length s.data)

/-- Rust `str::parse::<i32>`: optional sign, at least one ASCII digit,
rejecting out-of-range values. -/
def parseI32 (s : String) : Option Int :=
  let p : Int × List Char :=
    match s.data with
    | '+' :: rest => (1, rest)
    | '-' :: rest => (-1, rest)
    | cs => (1, cs)
  if p.2 = [] then none
  else if p.2.all (fun c => c.isDigit) then
    let v : Int := p.1 * ((p.2.foldl (fun a c => a * 10 + (c.toNat - 48)) 0 : Nat) : Int)
    if -(2 ^ 31) ≤ v ∧ v ≤ 2 ^ 31 - 1 then some v else none
  else none

/-- Derivation of a variant list from the host+files record shape
(src/src/services/seventv/mod.rs lines 416-432): scale parsed from the
file name convention `"{scale}x.{format}"` (default 1), MIME synthesized
as `image/{format}`, frame count 2 when the emote's animated flag is set,
else 1. -/
def hostImages (host : TrendingHost) (animated : Bool) : List Image :=
  host.files.map (fun f =>
    let scale_str := trimEndMatches f.name ("x." ++ f.format)
    let scale := (parseI32 scale_str).getD 1
    { url := "https:" ++ host.url ++ "/" ++ f.name
      mime := "image/" ++ f.format
      size := 0
      scale := scale
      width := f.width
      frame_count := if animated then 2 else 1 })

/-- Image-source resolution at the start of `process_single_emote`:
explicit `images` list, else the derived host+files shape, else drop. -/
def resolveImages (e : Emote) : Option (List Image) :=
  match e.images with
  | some imgs => some imgs
  | none =>
    match e.host with
    | some host => some (hostImages host (e.animated.getD false))
    | none => none

/-- Network oracle for one ingestion run: `http url` is `some body` iff the
GET returned a 2xx status and the body was read; `putOk name` is the
outcome of the blob PUT for that name. -/
structure NetEnv where
  http : String → Option (List Nat)
  putOk : String → Bool

/-- `process_single_emote` (src/src/services/seventv/mod.rs lines 408-474):
resolve the image source, pick the best variant, download it, sanitize the
display name, build the deterministic file name
`{safe_name}_{id}{extension}` and blob path `{folder}/{file_name}`, and
upload idempotently. Any failure drops the record (`None`) and leaves the
store unchanged. -/
def process_single_emote (env : NetEnv) (e : Emote) (st : StorageState)
    (folder : String) : Option EmoteResponse × StorageState :=
  match resolveImages e with
  | none => (none, st)
  | some images =>
    match select_best_image images with
    | none => (none, st)
    | some best =>
      match env.http best.url with
      | none => (none, st)
      | some data =>
        match e.default_name.or e.name with
        | none => (none, st)
        | some nm =>
          let safe_name := sanitizeName nm
          let file_name := safe_name ++ "_" ++ e.id ++ extensionFor best.mime
          let blob_name := folder ++ "/" ++ file_name
          match upload_blob (env.putOk blob_name) st (.bytes data) blob_name best.mime with
          | .error _ => (none, st)
          | .ok (url, st') =>
            (some { file_name := file_name
                    url := url
                    emote_id := e.id
                    emote_name := nm
                    owner := e.owner.bind (fun o => o.main_connection.map (·.platform_display_name))
                    animated := some (animFlag best)
                    scale := some best.scale
                    mime := some best.mime }, st')

/-- `process_emotes_batch` (src/src/services/seventv/mod.rs lines 384-405)
as a state transformer: the per-record pipelines of
`stream::buffer_unordered(5)` are linearized in input order (each record's
effect on the store is the atomic `process_single_emote`); dropped records
(`None`) are filtered out as by `filter_map`. The concurrency structure
itself (width 5, unordered completion) is modelled by
`runBufferUnordered` below. -/
def process_emotes_batch (env : NetEnv) (emotes : List Emote) (st : StorageState)
    (folder : String) : List EmoteResponse × StorageState :=
  match emotes with
  | [] => ([], st)
  | e :: rest =>
    let pr := process_single_emote env e st folder
    let pb := process_emotes_batch env rest pr.2 folder
    (match pr.1 with
     | some r => r :: pb.1
     | none => pb.1, pb.2)

/-- The values that flow through the Redis cache: a serialized
`SearchResponse` (ad-hoc keys) or a serialized `Vec<EmoteResponse>` (sync
keys). Deserializing into the other type fails, as with serde. -/
inductive CacheVal where
  | resp (r : SearchResponse)
  | emoteList (l : List EmoteResponse)
deriving DecidableEq

/-- `CacheService::get_from_cache` (src/src/services/cache/mod.rs lines
28-31): a failed connection or GET yields `None`. TTL expiry is external
nondeterminism folded into the `connOk`/state oracle. -/
def get_from_cache (connOk : Bool) (cache : List (String × CacheVal)) (key : String) :
    Option CacheVal :=
  if connOk then cache.lookup key else none

/-- `CacheService::save_to_cache` (src/src/services/cache/mod.rs lines
33-43): `SET key ... EX ttl` overwrites the key. Every caller ignores or
merely logs the error, so a failed save (`ok = false`) leaves the cache
unchanged. The TTL value itself is not modelled. -/
def save_to_cache (ok : Bool) (cache : List (String × CacheVal)) (key : String)
    (v : CacheVal) : List (String × CacheVal) :=
  if ok then (key, v) :: cache else cache

/-- `CacheService::get_cache_key` (src/src/services/cache/mod.rs line 20). -/
def get_cache_key (query : String) (limit : Int) (animated_only : Bool) : String :=
  "emote_search:" ++ query ++ ":" ++ intStr limit ++ ":" ++ boolStr animated_only

/-- `CacheService::get_trending_cache_key` (src/src/services/cache/mod.rs
line 24). -/
def get_trending_cache_key (period : String) (limit : Int) (page : Int)
    (animated_only : Bool) : String :=
  "trending:" ++ period ++ ":" ++ intStr limit ++ ":" ++ intStr page ++ ":" ++ boolStr animated_only

/-- Modelled from the spec: `CacheService::get_trending_sync_key` is called
by the route handlers but its definition is not among the provided
sources. The spec only requires "the folder's long-TTL sync key" — a
deterministic key derived from period and animated flag, shared by the
sync writer and the synced reader. Any injective derivation satisfies the
claims; this one mirrors the database folder naming of the same handler. -/
def get_trending_sync_key (period : String) (animated_only : Bool) : String :=
  "sync:trending:" ++ period ++ ":" ++ boolStr animated_only

/-- One row of the `stickers` table (the relational ledger), as selected by
`StickerRow` in src/src/routes/mod.rs lines 587-596. -/
structure StickerRow where
  seven_tv_id : String
  emote_name : String
  file_name : String
  url : String
  owner_name : Option String
  tags : Option (List String)
  animated : Bool
  folder_name : String
deriving DecidableEq

/-- One row of the `users` table (src/src/routes/mod.rs lines 598-606);
`last_synced_at` (`NOW()`) is wall-clock time and not modelled. -/
structure UserRow where
  seven_tv_id : String
  folder_name : String
  display_name : String
  emote_count : Int
deriving DecidableEq

/-- The relational database state. -/
structure DbState where
  stickers : List StickerRow
  users : List UserRow
deriving DecidableEq

/-- The full external-store state a request sees: Redis cache, Postgres
ledger, Azure archive. -/
structure SysState where
  cache : List (String × CacheVal)
  db : DbState
  storage : StorageState
deriving DecidableEq

/-- `SELECT ... FROM stickers WHERE folder_name = $1 LIMIT $2`: rows of the
folder in insertion order (the query has no ORDER BY; insertion order is
one faithful linearization), truncated to the limit. -/
def stickersForFolder (db : List StickerRow) (folder : String) (limit : Nat) :
    List StickerRow :=
  (db.filter (fun r => r.folder_name == folder)).take limit

/-- `DELETE FROM stickers WHERE folder_name = $1`. -/
def deleteStickersByFolder (db : List StickerRow) (folder : String) : List StickerRow :=
  db.filter (fun r => !(r.folder_name == folder))

/-- The `stickers` row built from one produced asset by both sync handlers.
`EmoteResponse` in the provided sources carries no tags field, so the tags
column is stored empty. -/
def rowOfEmote (folder : String) (r : EmoteResponse) : StickerRow :=
  { seven_tv_id := r.emote_id
    emote_name := r.emote_name
    file_name := r.file_name
    url := r.url
    owner_name := r.owner
    tags := none
    animated := r.animated.getD false
    folder_name := folder }

/-- The plain-`INSERT` loop of `sync_trending_handler` (src/src/routes/mod.rs
lines 240-257): each insert's failure is ignored (`let _ =`), modelled by
the per-index `okf` oracle. -/
def insertStickersGo (okf : Nat → Bool) (folder : String) :
    Nat → List StickerRow → List EmoteResponse → List StickerRow
  | _, db, [] => db
  | i, db, r :: rs =>
    insertStickersGo okf folder (i + 1) (if okf i then db ++ [rowOfEmote folder r] else db) rs

def insertStickers (okf : Nat → Bool) (folder : String) (emotes : List EmoteResponse)
    (db : List StickerRow) : List StickerRow :=
  insertStickersGo okf folder 0 db emotes

/-- `INSERT ... ON CONFLICT (seven_tv_id, folder_name) DO UPDATE`: update
the matching row's mutable columns, else append. -/
def upsertSticker (db : List StickerRow) (row : StickerRow) : List StickerRow :=
  if db.any (fun q => q.seven_tv_id == row.seven_tv_id && q.folder_name == row.folder_name) then
    db.map (fun q =>
      if q.seven_tv_id == row.seven_tv_id && q.folder_name == row.folder_name then
        { q with emote_name := row.emote_name, file_name := row.file_name, url := row.url,
                 owner_name := row.owner_name, tags := row.tags, animated := row.animated }
      else q)
  else db ++ [row]

/-- The upsert loop of `sync_user_emotes_handler` (src/src/routes/mod.rs
lines 454-480), each row's failure independently ignored. -/
def upsertStickersGo (okf : Nat → Bool) (folder : String) :
    Nat → List StickerRow → List EmoteResponse → List StickerRow
  | _, db, [] => db
  | i, db, r :: rs =>
    upsertStickersGo okf folder (i + 1)
      (if okf i then upsertSticker db (rowOfEmote folder r) else db) rs

def upsertStickers (okf : Nat → Bool) (folder : String) (emotes : List EmoteResponse)
    (db : List StickerRow) : List StickerRow :=
  upsertStickersGo okf folder 0 db emotes

/-- `INSERT INTO users ... ON CONFLICT (folder_name) DO UPDATE` from
`sync_user_emotes_handler`; failure is logged only. -/
def upsertUser (ok : Bool) (users : List UserRow) (row : UserRow) : List UserRow :=
  if ok then
    if users.any (fun u => u.folder_name == row.folder_name) then
      users.map (fun u =>
        if u.folder_name == row.folder_name then
          { u with seven_tv_id := row.seven_tv_id, display_name := row.display_name,
                   emote_count := row.emote_count }
        else u)
    else users ++ [row]
  else users

/-- The failure envelope every handler builds on error: `success = false`,
no emotes, the message, `cached = Some(false)`, everything else `None`. -/
def errorResponse (msg : String) : SearchResponse :=
  { success := false, total_found := 0, emotes := [], message := some msg,
    cached := some false, processing_time := none, page := none, total_pages := none,
    results_per_page := none, has_next_page := none }

/-- `SyncTrendingRequest` (src/src/models/mod.rs). -/
structure SyncTrendingRequest where
  period : Option String
  animated_only : Option Bool
  limit : Option Int
deriving DecidableEq

/-- `SyncUserEmotesRequest` (src/src/models/mod.rs). -/
structure SyncUserEmotesRequest where
  user_id : String
  limit : Option Int
  folder_name : String
deriving DecidableEq

/-- `TrendingQuery` (src/src/routes/mod.rs lines 98-104). -/
structure TrendingQuery where
  period : Option String
  limit : Option Int
  animated_only : Option Bool
  emote_type : Option String
deriving DecidableEq

/-- `SearchRequest` (src/src/models/mod.rs). -/
structure SearchRequest where
  query : String
  limit : Option Int
  animated_only : Option Bool
  page : Option Int
deriving DecidableEq

/-- Oracle bundle for one resync request: outcomes of the archive cleanup,
the upstream fetch, the cache write, the manifest PUT, and the ledger
statements. -/
structure SyncEnv where
  net : NetEnv
  listDeleteOk : Bool
  fetch : Except String (List Emote)
  cacheSetOk : Bool
  manifestPutOk : Bool
  dbDeleteOk : Bool
  dbInsertOk : Nat → Bool
  userUpsertOk : Bool
  stickerUpsertOk : Nat → Bool

/-- `sync_trending_handler` (src/src/routes/mod.rs lines 170-288): the
trending resync. Step order as in the source: (1) delete archive blobs
under `{folder}/`, aborting on failure; (2) fetch trending emotes,
aborting on failure; (3) ingest the batch; (4) cache the result under the
sync key (best effort); (5) write the `_metadata.json` manifest (best
effort); (6) delete-then-insert the folder's ledger rows (each statement
best effort). -/
def sync_trending_handler (env : SyncEnv) (payload : SyncTrendingRequest)
    (s : SysState) : SearchResponse × SysState :=
  let animated_only := payload.animated_only.getD false
  let period_str := payload.period.getD "trending_weekly"
  let limit := payload.limit.getD 100
  let type_str := if animated_only then "animated" else "static"
  let folder := "trending/" ++ period_str ++ "/" ++ type_str
  match deleteBlobsUnder env.listDeleteOk s.storage (folder ++ "/") with
  | .error e => (errorResponse ("Failed to cleanup existing emotes: " ++ e), s)
  | .ok st1 =>
    match env.fetch with
    | .error e => (errorResponse e, { s with storage := st1 })
    | .ok emotes =>
      let pb := process_emotes_batch env.net emotes st1 folder
      let processed := pb.1
      let sync_key := get_trending_sync_key period_str animated_only
      let cache1 := save_to_cache env.cacheSetOk s.cache sync_key (.emoteList processed)
      let st3 :=
        match upload_blob env.manifestPutOk pb.2 (.json processed)
            (folder ++ "/_metadata.json") "application/json" with
        | .ok p => p.2
        | .error _ => pb.2
      let db_folder := "trending_sync:" ++ period_str ++ ":" ++ boolStr animated_only
      let stickers1 :=
        if env.dbDeleteOk then deleteStickersByFolder s.db.stickers db_folder
        else s.db.stickers
      let stickers2 := insertStickers env.dbInsertOk db_folder processed stickers1
      ({ success := true, total_found := i32Cast processed.length, emotes := processed,
         message := some "Synced successfully", cached := some false,
         processing_time := none, page := some 1, total_pages := some 1,
         results_per_page := some limit, has_next_page := some false },
       { cache := cache1, db := { stickers := stickers2, users := s.db.users }, storage := st3 })

/-- `sync_user_emotes_handler` (src/src/routes/mod.rs lines 386-511): the
user-folder resync. Same cleanup/fetch/ingest skeleton, but the cache key
is `user_emotes:{folder}`, a `users` row is upserted, the ledger rows are
per-row upserts without a prior delete, and no manifest blob is written. -/
def sync_user_emotes_handler (env : SyncEnv) (payload : SyncUserEmotesRequest)
    (s : SysState) : SearchResponse × SysState :=
  let limit := payload.limit.getD 100
  let folder := payload.folder_name
  match deleteBlobsUnder env.listDeleteOk s.storage (folder ++ "/") with
  | .error e => (errorResponse ("Failed to cleanup existing emotes: " ++ e), s)
  | .ok st1 =>
    match env.fetch with
    | .error e => (errorResponse e, { s with storage := st1 })
    | .ok emotes =>
      let pb := process_emotes_batch env.net emotes st1 folder
      let processed := pb.1
      let cache_key := "user_emotes:" ++ folder
      let cache1 := save_to_cache env.cacheSetOk s.cache cache_key (.emoteList processed)
      let user_display_name :=
        match processed.head? with
        | some fe => fe.owner.getD "Unknown"
        | none => "Unknown"
      let users1 := upsertUser env.userUpsertOk s.db.users
        { seven_tv_id := payload.user_id, folder_name := folder,
          display_name := user_display_name, emote_count := i32Cast processed.length }
      let stickers1 := upsertStickers env.stickerUpsertOk folder processed s.db.stickers
      ({ success := true, total_found := i32Cast processed.length, emotes := processed,
         message := some "User emotes synced successfully", cached := some false,
         processing_time := none, page := some 1, total_pages := some 1,
         results_per_page := some limit, has_next_page := some false },
       { cache := cache1, db := { stickers := stickers1, users := users1 }, storage := pb.2 })

/-- `return_paginated_response` (src/src/routes/mod.rs lines 361-384): the
fixed `[0, limit)` window over the cached collection. -/
def return_paginated_response (all_emotes : List EmoteResponse) (limit : Nat) :
    SearchResponse :=
  let total := all_emotes.length
  let start_index := 0
  let end_index := min (start_index + limit) total
  let slice := if start_index < total then all_emotes.take end_index else []
  { success := true, total_found := i32Cast slice.length, emotes := slice,
    message := none, cached := some true, processing_time := none, page := some 1,
    total_pages := some 1, results_per_page := some (i32Cast limit),
    has_next_page := some false }

/-- Oracle bundle for the read-only synced endpoint: whether the ledger
query and the cache connection succeed. -/
structure ReadEnv where
  dbOk : Bool
  cacheGetOk : Bool

/-- `synced_trending_emotes_handler` (src/src/routes/mod.rs lines 290-359):
the synced read. Tier 1 is the ledger (rows for the folder, when the query
succeeds and is non-empty); tier 2 is the cached sync-key collection; a
miss on both yields the "No synced data" failure. The handler performs no
writes, so it returns only a response. -/
def synced_trending_emotes_handler (env : ReadEnv) (params : TrendingQuery)
    (s : SysState) : SearchResponse :=
  let limit : Int := params.limit.getD 20
  let animated_only := params.animated_only.getD false || params.emote_type == some "animated"
  let period_str := params.period.getD "trending_weekly"
  let db_folder := "trending_sync:" ++ period_str ++ ":" ++ boolStr animated_only
  let rows : Option (List StickerRow) :=
    if env.dbOk then some (stickersForFolder s.db.stickers db_folder (usizeCast limit))
    else none
  let fromDb : Option (List StickerRow) :=
    match rows with
    | some stickers => if stickers.isEmpty then none else some stickers
    | none => none
  match fromDb with
  | some stickers =>
    let emotes : List EmoteResponse := stickers.map (fun q =>
      { emote_id := q.seven_tv_id, emote_name := q.emote_name, file_name := q.file_name,
        url := q.url, owner := q.owner_name, animated := some q.animated,
        scale := none, mime := none })
    { success := true, total_found := i32Cast emotes.length, emotes := emotes,
      message := none, cached := some false, processing_time := none, page := some 1,
      total_pages := some 1, results_per_page := some limit, has_next_page := some false }
  | none =>
    let sync_key := get_trending_sync_key period_str animated_only
    match get_from_cache env.cacheGetOk s.cache sync_key with
    | some (.emoteList all_emotes) => return_paginated_response all_emotes (usizeCast limit)
    | _ => errorResponse "No synced data found in DB or Cache. Please run admin sync."

/-- Oracle bundle for the ad-hoc search endpoint. -/
structure SearchEnv where
  net : NetEnv
  cacheGetOk : Bool
  cacheSetOk : Bool
  fetch : Except String (List Emote)

/-- The cache-miss path of `search_emotes_handler`: fetch from the catalog,
ingest into the `"emotes"` folder, cache and return the envelope. -/
def searchFetchPath (env : SearchEnv) (s : SysState) (cache_key : String)
    (limit page : Int) : SearchResponse × SysState :=
  match env.fetch with
  | .ok emotes =>
    let pb := process_emotes_batch env.net emotes s.storage "emotes"
    let response : SearchResponse :=
      { success := true, total_found := i32Cast pb.1.length, emotes := pb.1,
        message := none, cached := some false, processing_time := none,
        page := some page, total_pages := some 1, results_per_page := some limit,
        has_next_page := some false }
    let cache1 := save_to_cache env.cacheSetOk s.cache cache_key (.resp response)
    (response, { s with cache := cache1, storage := pb.2 })
  | .error e => (errorResponse e, s)

/-- `search_emotes_handler` (src/src/routes/mod.rs lines 41-96): cache-aside
read; a hit that deserializes as a `SearchResponse` is returned marked
`cached = true`, anything else falls through to the fetch path. -/
def search_emotes_handler (env : SearchEnv) (payload : SearchRequest)
    (s : SysState) : SearchResponse × SysState :=
  let limit := payload.limit.getD 20
  let page := payload.page.getD 1
  let animated_only := payload.animated_only.getD false
  let cache_key := get_cache_key payload.query limit animated_only
  match get_from_cache env.cacheGetOk s.cache cache_key with
  | some (.resp r) => ({ r with cached := some true }, s)
  | some (.emoteList _) => searchFetchPath env s cache_key limit page
  | none => searchFetchPath env s cache_key limit page

/-- Scheduler state for `stream::buffer_unordered`: `pending` tasks not yet
polled (in input order), `inflight` tasks started but not completed, and
the `output` collected in completion order. -/
structure BufState (α β : Type) where
  pending : List α
  inflight : List α
  output : List β
deriving DecidableEq

/-- Fill the in-flight buffer from the pending queue up to the width, in
input order — how `buffer_unordered` polls the underlying stream. -/
def fillBuffer (width : Nat) : List α → List α → List α × List α
  | [], infl => ([], infl)
  | x :: rest, infl =>
    if infl.length < width then fillBuffer width rest (infl ++ [x])
    else (x :: rest, infl)

/-- One scheduler step: refill the buffer, then complete the in-flight task
the schedule chooses (index taken modulo the buffer size), appending its
result to the output. -/
def bufferStep (width : Nat) (f : α → β) (s : BufState α β) (choice : Nat) :
    BufState α β :=
  let fp := fillBuffer width s.pending s.inflight
  if hn : fp.2.length = 0 then
    { pending := fp.1, inflight := fp.2, output := s.output }
  else
    let i := choice % fp.2.length
    { pending := fp.1
      inflight := fp.2.eraseIdx i
      output := s.output ++ [f (fp.2.get ⟨i, Nat.mod_lt _ (Nat.pos_of_ne_zero hn)⟩)] }

/-- `stream::buffer_unordered(width)` over a task list: the schedule picks
which in-flight task completes at each step. Every interleaving the
combinator allows is some schedule. -/
def runBufferUnordered (width : Nat) (f : α → β) (sched : List Nat) (tasks : List α) :
    BufState α β :=
  sched.foldl (bufferStep width f) { pending := tasks, inflight := [], output := [] }

/-- The concurrency structure of `process_emotes_batch`: the per-record
pipeline as one task, run through `buffer_unordered` with the source's
literal width of 5 (src/src/services/seventv/mod.rs line 401). -/
def processBatchConcurrent (f : Emote → Option EmoteResponse) (sched : List Nat)
    (emotes : List Emote) : BufState Emote (Option EmoteResponse) :=
  runBufferUnordered 5 f sched emotes

theorem fillBuffer_length_le (width : Nat) (p : List α) :
    ∀ infl : List α, infl.length ≤ width → (fillBuffer width p infl).2.length ≤ width := by
  induction p with
  | nil => intro infl h; simpa [fillBuffer] using h
  | cons x rest ih =>
    intro infl h
    unfold fillBuffer
    by_cases hc : infl.length < width
    · rw [if_pos hc]
      exact ih (infl ++ [x]) (by simp; omega)
    · rw [if_neg hc]
      exact h

theorem bufferStep_length_le (width : Nat) (f : α → β) (s : BufState α β) (c : Nat)
    (h : s.inflight.length ≤ width) : (bufferStep width f s c).inflight.length ≤ width := by
  unfold bufferStep
  have hf := fillBuffer_length_le width s.pending s.inflight h
  by_cases hn : (fillBuffer width s.pending s.inflight).2.length = 0
  · simp only [hn, dif_pos]
    omega
  · simp only [hn, dif_neg, not_false_eq_true]
    have := List.length_eraseIdx (l := (fillBuffer width s.pending s.inflight).2)
      (i := c % (fillBuffer width s.pending s.inflight).2.length)
    simp only [Nat.mod_lt _ (Nat.pos_of_ne_zero hn), if_true] at this
    simp only [this]
    omega

theorem runBufferUnordered_width (width : Nat) (f : α → β) (sched : List Nat) :
    ∀ s : BufState α β, s.inflight.length ≤ width →
      (sched.foldl (bufferStep width f) s).inflight.length ≤ width := by
  induction sched with
  | nil => intro s h; simpa using h
  | cons c rest ih =>
    intro s h
    simp only [List.foldl_cons]
    exact ih _ (bufferStep_length_le width f s c h)

theorem lookup_filter_key {β : Type} (l : List (String × β)) (f : String → Bool) (k : String) :
    (l.filter (fun b => f b.1)).lookup k = if f k then l.lookup k else none := by
  induction l with
  | nil => simp [List.lookup]
  | cons a t ih =>
    rcases a with ⟨ka, va⟩
    by_cases hk : k = ka
    · subst hk
      by_cases hf : f k
      · simp [List.filter_cons, hf, List.lookup]
      · simp [List.filter_cons, hf, List.lookup, ih]
    · have hbk : (k == ka) = false := beq_eq_false_iff_ne.mpr hk
      by_cases hf : f ka
      · simp [List.filter_cons, hf, List.lookup, hbk, ih]
      · simp [List.filter_cons, hf, List.lookup, hbk, ih]

theorem strStartsWith_append (p t : String) : strStartsWith p (p ++ t) = true := by
  unfold strStartsWith
  rw [String.data_append, List.isPrefixOf_iff_prefix]
  exact List.prefix_append p.data t.data

theorem deleteBlobsUnder_ok_lookup (st : StorageState) (pre : String)
    (hc : st.client = true) (st1 : StorageState)
    (h : deleteBlobsUnder true st pre = .ok st1) :
    st1.client = st.client ∧ st1.account_name = st.account_name ∧
      st1.container_name = st.container_name ∧
      ∀ n, (st1.blobs.lookup n).isSome = true ↔
        ((st.blobs.lookup n).isSome = true ∧ strStartsWith pre n = false) := by
  unfold deleteBlobsUnder at h
  rw [hc] at h
  simp only [Bool.true_eq_false, if_false, if_true] at h
  cases h
  refine ⟨hc.symm, rfl, rfl, fun n => ?_⟩
  have := lookup_filter_key st.blobs (fun k => !(strStartsWith pre k)) n
  simp only [this]
  by_cases hp : strStartsWith pre n
  · simp [hp]
  · simp [hp]

theorem upload_blob_ok_spec (p : Bool) (st : StorageState) (d : BlobData)
    (bn ct : String) (u : String) (st' : StorageState)
    (h : upload_blob p st d bn ct = .ok (u, st')) :
    st.client = true ∧ st'.client = st.client ∧ st'.account_name = st.account_name ∧
      st'.container_name = st.container_name ∧ u = blobUrl st bn ∧
      blobPresent st' bn = true ∧
      ∀ n, (st'.blobs.lookup n).isSome = true ↔
        ((st.blobs.lookup n).isSome = true ∨ n = bn) := by
  unfold upload_blob at h
  split_ifs at h with h1 h2 h3
  · cases h
    have hcl : st.client = true := by revert h1; cases st.client <;> simp
    refine ⟨hcl, rfl, rfl, rfl, rfl, h2, fun n => ?_⟩
    constructor
    · exact fun hs => Or.inl hs
    · rintro (hs | rfl)
      · exact hs
      · exact h2
  · cases h
    have hcl : st.client = true := by revert h1; cases st.client <;> simp
    have hsingle : ∀ n : String,
        (([(bn, (⟨d, ct⟩ : BlobRec))].lookup n).isSome = true) ↔ n = bn := by
      intro n
      simp only [List.lookup]
      by_cases hb : n = bn
      · simp [hb]
      · simp [beq_eq_false_iff_ne.mpr hb, hb, List.lookup]
    refine ⟨hcl, rfl, rfl, rfl, rfl, ?_, fun n => ?_⟩
    · unfold blobPresent
      simp only [List.lookup_append, Option.isSome_or]
      exact Bool.or_eq_true_iff.mpr (Or.inr ((hsingle bn).mpr rfl))
    · simp only [List.lookup_append, Option.isSome_or]
      constructor
      · intro hs
        rcases Bool.or_eq_true_iff.mp hs with hs | hs
        · exact Or.inl hs
        · exact Or.inr ((hsingle n).mp hs)
      · rintro (hs | rfl)
        · exact Bool.or_eq_true_iff.mpr (Or.inl hs)
        · exact Bool.or_eq_true_iff.mpr (Or.inr ((hsingle n).mpr rfl))

theorem upload_blob_skip (p : Bool) (st : StorageState) (d : BlobData) (bn ct : String)
    (hc : st.client = true) (hp : blobPresent st bn = true) :
    upload_blob p st d bn ct = .ok (blobUrl st bn, st) := by
  unfold upload_blob
  rw [hc, hp]
  simp

theorem upload_blob_unconfigured (p : Bool) (st : StorageState) (d : BlobData)
    (bn ct : String) (hc : st.client = false) :
    upload_blob p st d bn ct = .error "Azure Storage not initialized" := by
  unfold upload_blob
  rw [hc]
  simp

theorem process_single_client_none (env : NetEnv) (e : Emote) (st : StorageState)
    (folder : String) (h : st.client = false) :
    process_single_emote env e st folder = (none, st) := by
  unfold process_single_emote
  cases hri : resolveImages e with
  | none => rfl
  | some imgs =>
    dsimp only
    cases hsb : select_best_image imgs with
    | none => rfl
    | some best =>
      dsimp only
      cases hh : env.http best.url with
      | none => rfl
      | some data =>
        dsimp only
        cases hn : e.default_name.or e.name with
        | none => rfl
        | some nm =>
          dsimp only
          rw [upload_blob_unconfigured _ _ _ _ _ h]

theorem process_single_some_inv (env : NetEnv) (e : Emote) (st : StorageState)
    (folder : String) (r : EmoteResponse) (st' : StorageState)
    (h : process_single_emote env e st folder = (some r, st')) :
    ∃ images best data nm,
      resolveImages e = some images ∧
      select_best_image images = some best ∧
      env.http best.url = some data ∧
      e.default_name.or e.name = some nm ∧
      r.file_name = sanitizeName nm ++ "_" ++ e.id ++ extensionFor best.mime ∧
      r.emote_id = e.id ∧ r.emote_name = nm ∧
      r.owner = e.owner.bind (fun o => o.main_connection.map (·.platform_display_name)) ∧
      r.animated = some (animFlag best) ∧ r.scale = some best.scale ∧
      r.mime = some best.mime ∧
      upload_blob (env.putOk (folder ++ "/" ++ r.file_name)) st (.bytes data)
        (folder ++ "/" ++ r.file_name) best.mime = .ok (r.url, st') := by
  unfold process_single_emote at h
  cases hri : resolveImages e with
  | none => rw [hri] at h; simp at h
  | some imgs =>
    rw [hri] at h
    dsimp only at h
    cases hsb : select_best_image imgs with
    | none => rw [hsb] at h; simp at h
    | some best =>
      rw [hsb] at h
      dsimp only at h
      cases hh : env.http best.url with
      | none => rw [hh] at h; simp at h
      | some data =>
        rw [hh] at h
        dsimp only at h
        cases hn : e.default_name.or e.name with
        | none => rw [hn] at h; simp at h
        | some nm =>
          rw [hn] at h
          dsimp only at h
          cases hub : upload_blob
              (env.putOk (folder ++ "/" ++ (sanitizeName nm ++ "_" ++ e.id ++ extensionFor best.mime)))
              st (.bytes data)
              (folder ++ "/" ++ (sanitizeName nm ++ "_" ++ e.id ++ extensionFor best.mime))
              best.mime with
          | error msg => rw [hub] at h; simp at h
          | ok p =>
            rw [hub] at h
            rcases p with ⟨u, st2⟩
            simp only [Prod.mk.injEq, Option.some.injEq] at h
            obtain ⟨hr, hst⟩ := h
            subst hst
            refine ⟨imgs, best, data, nm, rfl, hsb, hh, rfl, ?_⟩
            subst hr
            exact ⟨rfl, rfl, rfl, rfl, rfl, rfl, rfl, hub⟩

theorem process_single_none_state (env : NetEnv) (e : Emote) (st : StorageState)
    (folder : String) (st' : StorageState)
    (h : process_single_emote env e st folder = (none, st')) : st' = st := by
  unfold process_single_emote at h
  cases hri : resolveImages e with
  | none => rw [hri] at h; cases h; rfl
  | some imgs =>
    rw [hri] at h
    dsimp only at h
    cases hsb : select_best_image imgs with
    | none => rw [hsb] at h; cases h; rfl
    | some best =>
      rw [hsb] at h
      dsimp only at h
      cases hh : env.http best.url with
      | none => rw [hh] at h; cases h; rfl
      | some data =>
        rw [hh] at h
        dsimp only at h
        cases hn : e.default_name.or e.name with
        | none => rw [hn] at h; cases h; rfl
        | some nm =>
          rw [hn] at h
          dsimp only at h
          cases hub : upload_blob
              (env.putOk (folder ++ "/" ++ (sanitizeName nm ++ "_" ++ e.id ++ extensionFor best.mime)))
              st (.bytes data)
              (folder ++ "/" ++ (sanitizeName nm ++ "_" ++ e.id ++ extensionFor best.mime))
              best.mime with
          | error msg => rw [hub] at h; cases h; rfl
          | ok p => rw [hub] at h; rcases p with ⟨u, st2⟩; simp at h

theorem process_single_effect (env : NetEnv) (e : Emote) (st : StorageState)
    (folder : String) (res : Option EmoteResponse) (st' : StorageState)
    (h : process_single_emote env e st folder = (res, st')) :
    st'.client = st.client ∧ st'.account_name = st.account_name ∧
      st'.container_name = st.container_name ∧
      ∀ n, (st'.blobs.lookup n).isSome = true ↔
        ((st.blobs.lookup n).isSome = true ∨
          ∃ r, res = some r ∧ n = folder ++ "/" ++ r.file_name) := by
  cases res with
  | some r =>
    obtain ⟨images, best, data, nm, _, _, _, _, hfn, _, _, _, _, _, _, hub⟩ :=
      process_single_some_inv env e st folder r st' h
    obtain ⟨_, hcl, hac, hco, _, _, hlook⟩ := upload_blob_ok_spec _ _ _ _ _ _ _ hub
    refine ⟨hcl, hac, hco, fun n => ?_⟩
    rw [hlook n]
    constructor
    · rintro (hs | rfl)
      · exact Or.inl hs
      · exact Or.inr ⟨r, rfl, rfl⟩
    · rintro (hs | ⟨r1, hr1, rfl⟩)
      · exact Or.inl hs
      · cases hr1
        exact Or.inr rfl
  | none =>
    have hst := process_single_none_state env e st folder st' h
    subst hst
    exact ⟨rfl, rfl, rfl, fun n => by simp⟩

theorem process_emotes_batch_effect (env : NetEnv) (folder : String) :
    ∀ (emotes : List Emote) (st : StorageState),
      (process_emotes_batch env emotes st folder).2.client = st.client ∧
      (process_emotes_batch env emotes st folder).2.account_name = st.account_name ∧
      (process_emotes_batch env emotes st folder).2.container_name = st.container_name ∧
      ∀ n, ((process_emotes_batch env emotes st folder).2.blobs.lookup n).isSome = true ↔
        ((st.blobs.lookup n).isSome = true ∨
          ∃ r ∈ (process_emotes_batch env emotes st folder).1,
            n = folder ++ "/" ++ r.file_name) := by
  intro emotes
  induction emotes with
  | nil =>
    intro st
    refine ⟨rfl, rfl, rfl, fun n => ?_⟩
    simp [process_emotes_batch]
  | cons e rest ih =>
    intro st
    rcases hpr : process_single_emote env e st folder with ⟨res, st1⟩
    obtain ⟨hcl1, hac1, hco1, hlk1⟩ := process_single_effect env e st folder res st1 hpr
    obtain ⟨hcl2, hac2, hco2, hlk2⟩ := ih st1
    cases res with
    | none =>
      have key : process_emotes_batch env (e :: rest) st folder =
          ((process_emotes_batch env rest st1 folder).1,
           (process_emotes_batch env rest st1 folder).2) := by
        conv_lhs => rw [process_emotes_batch]
        simp only [hpr]
      rw [key]
      refine ⟨hcl2.trans hcl1, hac2.trans hac1, hco2.trans hco1, fun n => ?_⟩
      rw [hlk2 n, hlk1 n]
      constructor
      · rintro ((hs | ⟨r1, hr1, hn1⟩) | hmem)
        · exact Or.inl hs
        · cases hr1
        · exact Or.inr hmem
      · rintro (hs | hmem)
        · exact Or.inl (Or.inl hs)
        · exact Or.inr hmem
    | some r0 =>
      have key : process_emotes_batch env (e :: rest) st folder =
          (r0 :: (process_emotes_batch env rest st1 folder).1,
           (process_emotes_batch env rest st1 folder).2) := by
        conv_lhs => rw [process_emotes_batch]
        simp only [hpr]
      rw [key]
      refine ⟨hcl2.trans hcl1, hac2.trans hac1, hco2.trans hco1, fun n => ?_⟩
      rw [hlk2 n, hlk1 n]
      constructor
      · rintro ((hs | ⟨r1, hr1, hn1⟩) | ⟨r1, hm1, hn1⟩)
        · exact Or.inl hs
        · cases hr1
          exact Or.inr ⟨r0, List.mem_cons.mpr (Or.inl rfl), hn1⟩
        · exact Or.inr ⟨r1, List.mem_cons.mpr (Or.inr hm1), hn1⟩
      · rintro (hs | ⟨r1, hm1, hn1⟩)
        · exact Or.inl (Or.inl hs)
        · rcases List.mem_cons.mp hm1 with h1 | h1
          · subst h1
            exact Or.inl (Or.inr ⟨r1, rfl, hn1⟩)
          · exact Or.inr ⟨r1, h1, hn1⟩

theorem process_emotes_batch_unconfigured (env : NetEnv) (folder : String) :
    ∀ (emotes : List Emote) (st : StorageState), st.client = false →
      process_emotes_batch env emotes st folder = ([], st) := by
  intro emotes
  induction emotes with
  | nil => intro st _; rfl
  | cons e rest ih =>
    intro st h
    have key : process_emotes_batch env (e :: rest) st folder =
        ((match (none : Option EmoteResponse) with
          | some r => r :: (process_emotes_batch env rest st folder).1
          | none => (process_emotes_batch env rest st folder).1),
         (process_emotes_batch env rest st folder).2) := by
      conv_lhs => rw [process_emotes_batch]
      simp only [process_single_client_none env e st folder h]
    rw [key, ih st h]

theorem zip_map_snd {α β : Type} (f : α → β) :
    ∀ l : List α, ∀ p ∈ l.zip (l.map f), p.2 = f p.1 := by
  intro l
  induction l with
  | nil => intro p hp; cases hp
  | cons a t ih =>
    intro p hp
    rcases List.mem_cons.mp hp with h1 | h1
    · subst h1; rfl
    · exact ih p h1

/-- C2: for every non-empty list of image variants, `select_best_image`
returns exactly one variant that is maximal under the order: animated
(frame_count > 1) first, then MIME preference
webp > gif > avif > png > unknown, then highest scale (`imageKeyLE`); for
the empty list it returns none; and on the spec's worked example
`[{webp,1},{png,1},{webp,2}]` it returns the webp variant of scale 2. -/
theorem c2_select_best_image (l : List Image) (h : l ≠ []) :
    (∃ best, select_best_image l = some best ∧ best ∈ l ∧ ∀ v ∈ l, imageKeyLE v best)
      ∧ select_best_image ([] : List Image) = none
      ∧ select_best_image exampleVariants =
          some { url := "u3", mime := "image/webp", size := 0, scale := 2,
                 width := 64, frame_count := 1 } := by
  refine ⟨select_best_image_nonempty l h, rfl, by decide⟩

/-- Witness for C2: the theorem applied to the worked example. -/
theorem c2_select_best_image_witness :
    exampleVariants ≠ [] ∧
      ((∃ best, select_best_image exampleVariants = some best ∧ best ∈ exampleVariants
          ∧ ∀ v ∈ exampleVariants, imageKeyLE v best)
        ∧ select_best_image ([] : List Image) = none
        ∧ select_best_image exampleVariants =
            some { url := "u3", mime := "image/webp", size := 0, scale := 2,
                   width := 64, frame_count := 1 }) :=
  ⟨by decide, c2_select_best_image exampleVariants (by decide)⟩

/-- C6 counterexample: the sanitizer keeps `'é'` (a Unicode alphanumeric)
verbatim, although `'é'` is not in the claimed class `[A-Za-z0-9._- ]`, so
not every character of the sanitized output lies in that class. -/
theorem c6_counterexample :
    sanitizeName "é" = "é" ∧ ('é' ∈ (sanitizeName "é").data) ∧ inAsciiClass 'é' = false := by
  refine ⟨by decide, by decide, by decide⟩

/-- C6 as amended: the sanitizer replaces exactly those characters that are
neither Rust-`char::is_alphanumeric` (Unicode alphanumeric) nor one of
`'.'`, `'-'`, `'_'`, `' '` with `'_'`; consequently every character of the
output is Unicode alphanumeric or one of `'.'`, `'-'`, `'_'`, `' '` — a
class wider than the ASCII `[A-Za-z0-9._- ]` the original claim stated. -/
theorem c6_sanitize_amended (name : String) :
    (sanitizeName name).data.length = name.data.length ∧
    (∀ c ∈ (sanitizeName name).data, sanitizeKeep c = true) ∧
    (∀ p ∈ name.data.zip ((sanitizeName name).data),
      p.2 = if sanitizeKeep p.1 then p.1 else '_') := by
  refine ⟨by simp [sanitizeName], ?_, ?_⟩
  · intro c hc
    rcases List.mem_map.mp hc with ⟨c0, _, rfl⟩
    by_cases hk : sanitizeKeep c0
    · simp [hk]
    · simp only [hk, if_false, Bool.false_eq_true]
      decide
  · intro p hp
    exact zip_map_snd (fun c => if sanitizeKeep c then c else '_') name.data p hp

/-- Supporting closed instance for C6's amended claim at the
counterexample's input. -/
theorem c6_sanitize_amended_witness :
    (sanitizeName "é").data.length = ("é" : String).data.length ∧
    (∀ c ∈ (sanitizeName "é").data, sanitizeKeep c = true) ∧
    (∀ p ∈ ("é" : String).data.zip ((sanitizeName "é").data),
      p.2 = if sanitizeKeep p.1 then p.1 else '_') :=
  c6_sanitize_amended "é"

/-- C3: the produced file name is the pure function
`sanitize(displayName) ++ "_" ++ externalId ++ extension(chosenMime)` of
the record, and the blob at `{folder}/{file_name}` exists after a
successful run; re-processing the identical record against the resulting
store returns the identical asset and leaves the store unchanged (no
duplicate); and an upload against an already-existing blob path skips the
PUT (the outcome does not depend on the PUT oracle) and returns the
existing blob URL with the store untouched. -/
theorem c3_deterministic_idempotent :
    (∀ (env : NetEnv) (e : Emote) (st : StorageState) (folder : String)
        (r : EmoteResponse) (st' : StorageState),
      process_single_emote env e st folder = (some r, st') →
        r.file_name = sanitizeName r.emote_name ++ "_" ++ r.emote_id
            ++ extensionFor (r.mime.getD "") ∧
        blobPresent st' (folder ++ "/" ++ r.file_name) = true) ∧
    (∀ (env : NetEnv) (e : Emote) (st : StorageState) (folder : String)
        (r : EmoteResponse) (st' : StorageState),
      process_single_emote env e st folder = (some r, st') →
        process_single_emote env e st' folder = (some r, st')) ∧
    (∀ (putOk : Bool) (st : StorageState) (data : BlobData) (bn ct : String),
      st.client = true → blobPresent st bn = true →
        upload_blob putOk st data bn ct = .ok (blobUrl st bn, st)) := by
  refine ⟨?_, ?_, fun putOk st data bn ct hc hp => upload_blob_skip putOk st data bn ct hc hp⟩
  · intro env e st folder r st' h
    obtain ⟨images, best, data, nm, hri, hsb, hh, hn, hfn, hid, hnm, _, _, _, hmime, hub⟩ :=
      process_single_some_inv env e st folder r st' h
    obtain ⟨_, _, _, _, _, hpres, _⟩ := upload_blob_ok_spec _ _ _ _ _ _ _ hub
    refine ⟨?_, hpres⟩
    rw [hfn, hid, hnm, hmime]
    rfl
  · intro env e st folder r st' h
    obtain ⟨rfn, rurl, rid, rnm, row, ran, rsc, rmi⟩ := r
    obtain ⟨images, best, data, nm, hri, hsb, hh, hn, hfn, hid, hnm, how, han, hsc, hmi, hub⟩ :=
      process_single_some_inv env e st folder ⟨rfn, rurl, rid, rnm, row, ran, rsc, rmi⟩ st' h
    obtain ⟨hcl, hclst, hac, hco, hu, hpres, _⟩ := upload_blob_ok_spec _ _ _ _ _ _ _ hub
    subst hfn hid
    have hnm2 : rnm = nm := hnm
    subst hnm2
    have how2 : row = e.owner.bind (fun o => o.main_connection.map (·.platform_display_name)) := how
    subst how2
    have han2 : ran = some (animFlag best) := han
    subst han2
    have hsc2 : rsc = some best.scale := hsc
    subst hsc2
    have hmi2 : rmi = some best.mime := hmi
    subst hmi2
    unfold process_single_emote
    rw [hri]
    dsimp only
    rw [hsb]
    dsimp only
    rw [hh]
    dsimp only
    rw [hn]
    dsimp only
    rw [upload_blob_skip _ st' (.bytes data) _ best.mime (by rw [hclst]; exact hcl) hpres]
    have hurl : blobUrl st'
        (folder ++ "/" ++ (sanitizeName rnm ++ "_" ++ e.id ++ extensionFor best.mime)) = rurl := by
      unfold blobUrl
      rw [hac, hco]
      exact hu.symm
    rw [hurl]

/-- Concrete variant used by the C3 witness run. -/
def c3Img : Image :=
  { url := "https://img/one", mime := "image/webp", size := 3, scale := 1,
    width := 32, frame_count := 1 }

/-- Concrete raw record used by the C3 witness run. -/
def c3Emote : Emote :=
  { id := "e1", default_name := some "Kappa", name := none, owner := none,
    images := some [c3Img], host := none, animated := none }

/-- Concrete network oracle for the C3 witness run. -/
def c3Env : NetEnv :=
  { http := fun u => if u = "https://img/one" then some [1, 2, 3] else none,
    putOk := fun _ => true }

/-- Initial store for the C3 witness run. -/
def c3St0 : StorageState :=
  { client := true, account_name := "acc", container_name := "cont", blobs := [] }

/-- Store after the first C3 witness run. -/
def c3St1 : StorageState :=
  { client := true, account_name := "acc", container_name := "cont",
    blobs := [("emotes/Kappa_e1.webp", ⟨.bytes [1, 2, 3], "image/webp"⟩)] }

/-- Asset produced by the C3 witness run. -/
def c3Resp : EmoteResponse :=
  { file_name := "Kappa_e1.webp",
    url := "https://acc.blob.core.windows.net/cont/emotes/Kappa_e1.webp",
    emote_id := "e1", emote_name := "Kappa", owner := none, animated := some false,
    scale := some 1, mime := some "image/webp" }

/-- Witness for C3: the theorem applied to a concrete record, store and
network oracle. -/
theorem c3_deterministic_idempotent_witness :
    (c3Resp.file_name = sanitizeName c3Resp.emote_name ++ "_" ++ c3Resp.emote_id
        ++ extensionFor (c3Resp.mime.getD "") ∧
      blobPresent c3St1 ("emotes" ++ "/" ++ c3Resp.file_name) = true) ∧
    process_single_emote c3Env c3Emote c3St1 "emotes" = (some c3Resp, c3St1) ∧
    upload_blob true c3St1 (.bytes [1, 2, 3]) "emotes/Kappa_e1.webp" "image/webp" =
      .ok (blobUrl c3St1 "emotes/Kappa_e1.webp", c3St1) :=
  ⟨c3_deterministic_idempotent.1 c3Env c3Emote c3St0 "emotes" c3Resp c3St1 (by decide),
   c3_deterministic_idempotent.2.1 c3Env c3Emote c3St0 "emotes" c3Resp c3St1 (by decide),
   c3_deterministic_idempotent.2.2 true c3St1 (.bytes [1, 2, 3]) "emotes/Kappa_e1.webp"
     "image/webp" (by decide) (by decide)⟩

/-- C10: with the blob store unconfigured (`client = None`), every
`StorageService` operation returns an error value (no panic is modelled —
all operations are total functions into `Except`); the ingestion batch
silently drops every record (each one fails at its `upload_blob` step,
the only storage call in the per-record pipeline) leaving the store
untouched; and the ad-hoc search endpoint, on a cache miss with a
successful upstream fetch, still reports `success = true` with an empty
emote list. -/
theorem c10_storage_unconfigured :
    (∀ (putOk : Bool) (st : StorageState) (d : BlobData) (bn ct : String),
      st.client = false → upload_blob putOk st d bn ct = .error "Azure Storage not initialized") ∧
    (∀ (listOk : Bool) (st : StorageState) (pre : String),
      st.client = false → deleteBlobsUnder listOk st pre = .error "Azure Storage not initialized") ∧
    (∀ (st : StorageState) (bn : String),
      st.client = false → get_blob_content st bn = .error "Azure Storage not initialized") ∧
    (∀ (env : NetEnv) (emotes : List Emote) (st : StorageState) (folder : String),
      st.client = false → process_emotes_batch env emotes st folder = ([], st)) ∧
    (∀ (env : SearchEnv) (payload : SearchRequest) (s : SysState) (es : List Emote),
      s.storage.client = false →
      get_from_cache env.cacheGetOk s.cache
        (get_cache_key payload.query (payload.limit.getD 20) (payload.animated_only.getD false)) = none →
      env.fetch = .ok es →
        (search_emotes_handler env payload s).1.success = true ∧
        (search_emotes_handler env payload s).1.emotes = [] ∧
        (search_emotes_handler env payload s).1.total_found = 0) := by
  refine ⟨?_, ?_, ?_, ?_, ?_⟩
  · intro putOk st d bn ct hc
    exact upload_blob_unconfigured putOk st d bn ct hc
  · intro listOk st pre hc
    unfold deleteBlobsUnder
    rw [hc]
    simp
  · intro st bn hc
    unfold get_blob_content
    rw [hc]
    simp
  · intro env emotes st folder hc
    exact process_emotes_batch_unconfigured env folder emotes st hc
  · intro env payload s es hc hcache hfetch
    unfold search_emotes_handler
    dsimp only
    rw [hcache]
    unfold searchFetchPath
    rw [hfetch]
    dsimp only
    rw [process_emotes_batch_unconfigured env.net "emotes" es s.storage hc]
    exact ⟨rfl, rfl, show i32Cast (List.length ([] : List EmoteResponse)) = 0 by decide⟩

/-- Concrete unconfigured system state for the C10 witness. -/
def c10S : SysState :=
  { cache := [], db := { stickers := [], users := [] },
    storage := { client := false, account_name := "", container_name := "", blobs := [] } }

/-- Concrete search oracle bundle for the C10 witness. -/
def c10Env : SearchEnv :=
  { net := { http := fun _ => none, putOk := fun _ => false },
    cacheGetOk := true, cacheSetOk := true, fetch := .ok [] }

/-- Concrete search request for the C10 witness. -/
def c10Payload : SearchRequest :=
  { query := "q", limit := none, animated_only := none, page := none }

/-- Witness for C10: the theorem applied at a concrete unconfigured state. -/
theorem c10_storage_unconfigured_witness :
    (c10S.storage.client = false ∧
      get_from_cache c10Env.cacheGetOk c10S.cache
        (get_cache_key c10Payload.query (c10Payload.limit.getD 20)
          (c10Payload.animated_only.getD false)) = none ∧
      c10Env.fetch = .ok ([] : List Emote) ∧
      ((search_emotes_handler c10Env c10Payload c10S).1.success = true ∧
        (search_emotes_handler c10Env c10Payload c10S).1.emotes = [] ∧
        (search_emotes_handler c10Env c10Payload c10S).1.total_found = 0)) ∧
    upload_blob true c10S.storage (.bytes []) "folder/x.webp" "image/webp" =
      .error "Azure Storage not initialized" :=
  ⟨⟨by decide, by decide, rfl,
    c10_storage_unconfigured.2.2.2.2 c10Env c10Payload c10S [] (by decide) (by decide) rfl⟩,
   c10_storage_unconfigured.1 true c10S.storage (.bytes []) "folder/x.webp" "image/webp" (by decide)⟩

theorem deleteBlobsUnder_error_cases (l : Bool) (st : StorageState) (p : String)
    (msg : String) (h : deleteBlobsUnder l st p = .error msg) :
    st.client = false ∨ l = false := by
  unfold deleteBlobsUnder at h
  split_ifs at h with h1 h2
  · exact Or.inl h1
  · right
    revert h2
    cases l <;> simp

theorem deleteBlobsUnder_ok_cases (l : Bool) (st : StorageState) (p : String)
    (st1 : StorageState) (h : deleteBlobsUnder l st p = .ok st1) :
    st.client = true ∧ l = true := by
  unfold deleteBlobsUnder at h
  split_ifs at h with h1 h2
  constructor
  · revert h1; cases st.client <;> simp
  · exact h2

theorem deleteBlobsUnder_fails (l : Bool) (st : StorageState) (p : String)
    (hor : st.client = false ∨ l = false) :
    ∃ m, deleteBlobsUnder l st p = .error m := by
  unfold deleteBlobsUnder
  split_ifs with h1 h2
  · exact ⟨"Azure Storage not initialized", rfl⟩
  · rcases hor with h | h
    · exact absurd h h1
    · rw [h] at h2; cases h2
  · exact ⟨"list_blobs failed", rfl⟩

theorem sync_trending_handler_cleanup_fail (env : SyncEnv) (pT : SyncTrendingRequest)
    (s : SysState) (msg : String)
    (h : deleteBlobsUnder env.listDeleteOk s.storage
      ("trending/" ++ pT.period.getD "trending_weekly" ++ "/"
        ++ (if pT.animated_only.getD false then "animated" else "static") ++ "/") = .error msg) :
    sync_trending_handler env pT s =
      (errorResponse ("Failed to cleanup existing emotes: " ++ msg), s) := by
  unfold sync_trending_handler
  dsimp only
  rw [h]

theorem sync_trending_handler_fetch_fail (env : SyncEnv) (pT : SyncTrendingRequest)
    (s : SysState) (st1 : StorageState) (msg : String)
    (hdel : deleteBlobsUnder env.listDeleteOk s.storage
      ("trending/" ++ pT.period.getD "trending_weekly" ++ "/"
        ++ (if pT.animated_only.getD false then "animated" else "static") ++ "/") = .ok st1)
    (hf : env.fetch = .error msg) :
    sync_trending_handler env pT s = (errorResponse msg, { s with storage := st1 }) := by
  unfold sync_trending_handler
  dsimp only
  rw [hdel]
  dsimp only
  rw [hf]

theorem sync_trending_handler_ok (env : SyncEnv) (pT : SyncTrendingRequest)
    (s : SysState) (st1 : StorageState) (es : List Emote)
    (hdel : deleteBlobsUnder env.listDeleteOk s.storage
      ("trending/" ++ pT.period.getD "trending_weekly" ++ "/"
        ++ (if pT.animated_only.getD false then "animated" else "static") ++ "/") = .ok st1)
    (hf : env.fetch = .ok es) :
    sync_trending_handler env pT s =
      ({ success := true,
         total_found := i32Cast (process_emotes_batch env.net es st1
           ("trending/" ++ pT.period.getD "trending_weekly" ++ "/"
             ++ (if pT.animated_only.getD false then "animated" else "static"))).1.length,
         emotes := (process_emotes_batch env.net es st1
           ("trending/" ++ pT.period.getD "trending_weekly" ++ "/"
             ++ (if pT.animated_only.getD false then "animated" else "static"))).1,
         message := some "Synced successfully", cached := some false,
         processing_time := none, page := some 1, total_pages := some 1,
         results_per_page := some (pT.limit.getD 100), has_next_page := some false },
       { cache := save_to_cache env.cacheSetOk s.cache
           (get_trending_sync_key (pT.period.getD "trending_weekly") (pT.animated_only.getD false))
           (.emoteList (process_emotes_batch env.net es st1
             ("trending/" ++ pT.period.getD "trending_weekly" ++ "/"
               ++ (if pT.animated_only.getD false then "animated" else "static"))).1),
         db := { stickers := insertStickers env.dbInsertOk
                   ("trending_sync:" ++ pT.period.getD "trending_weekly" ++ ":"
                     ++ boolStr (pT.animated_only.getD false))
                   (process_emotes_batch env.net es st1
                     ("trending/" ++ pT.period.getD "trending_weekly" ++ "/"
                       ++ (if pT.animated_only.getD false then "animated" else "static"))).1
                   (if env.dbDeleteOk then
                      deleteStickersByFolder s.db.stickers
                        ("trending_sync:" ++ pT.period.getD "trending_weekly" ++ ":"
                          ++ boolStr (pT.animated_only.getD false))
                    else s.db.stickers),
                 users := s.db.users },
         storage :=
           match upload_blob env.manifestPutOk
               (process_emotes_batch env.net es st1
                 ("trending/" ++ pT.period.getD "trending_weekly" ++ "/"
                   ++ (if pT.animated_only.getD false then "animated" else "static"))).2
               (.json (process_emotes_batch env.net es st1
                 ("trending/" ++ pT.period.getD "trending_weekly" ++ "/"
                   ++ (if pT.animated_only.getD false then "animated" else "static"))).1)
               ("trending/" ++ pT.period.getD "trending_weekly" ++ "/"
                 ++ (if pT.animated_only.getD false then "animated" else "static")
                 ++ "/_metadata.json") "application/json" with
           | .ok p => p.2
           | .error _ =>
             (process_emotes_batch env.net es st1
               ("trending/" ++ pT.period.getD "trending_weekly" ++ "/"
                 ++ (if pT.animated_only.getD false then "animated" else "static"))).2 }) := by
  unfold sync_trending_handler
  dsimp only
  rw [hdel]
  dsimp only
  rw [hf]

theorem sync_user_handler_cleanup_fail (env : SyncEnv) (pU : SyncUserEmotesRequest)
    (s : SysState) (msg : String)
    (h : deleteBlobsUnder env.listDeleteOk s.storage (pU.folder_name ++ "/") = .error msg) :
    sync_user_emotes_handler env pU s =
      (errorResponse ("Failed to cleanup existing emotes: " ++ msg), s) := by
  unfold sync_user_emotes_handler
  dsimp only
  rw [h]

theorem sync_user_handler_fetch_fail (env : SyncEnv) (pU : SyncUserEmotesRequest)
    (s : SysState) (st1 : StorageState) (msg : String)
    (hdel : deleteBlobsUnder env.listDeleteOk s.storage (pU.folder_name ++ "/") = .ok st1)
    (hf : env.fetch = .error msg) :
    sync_user_emotes_handler env pU s = (errorResponse msg, { s with storage := st1 }) := by
  unfold sync_user_emotes_handler
  dsimp only
  rw [hdel]
  dsimp only
  rw [hf]

theorem sync_user_handler_ok (env : SyncEnv) (pU : SyncUserEmotesRequest)
    (s : SysState) (st1 : StorageState) (es : List Emote)
    (hdel : deleteBlobsUnder env.listDeleteOk s.storage (pU.folder_name ++ "/") = .ok st1)
    (hf : env.fetch = .ok es) :
    sync_user_emotes_handler env pU s =
      ({ success := true,
         total_found := i32Cast (process_emotes_batch env.net es st1 pU.folder_name).1.length,
         emotes := (process_emotes_batch env.net es st1 pU.folder_name).1,
         message := some "User emotes synced successfully", cached := some false,
         processing_time := none, page := some 1, total_pages := some 1,
         results_per_page := some (pU.limit.getD 100), has_next_page := some false },
       { cache := save_to_cache env.cacheSetOk s.cache ("user_emotes:" ++ pU.folder_name)
           (.emoteList (process_emotes_batch env.net es st1 pU.folder_name).1),
         db := { stickers := upsertStickers env.stickerUpsertOk pU.folder_name
                   (process_emotes_batch env.net es st1 pU.folder_name).1 s.db.stickers,
                 users := upsertUser env.userUpsertOk s.db.users
                   { seven_tv_id := pU.user_id, folder_name := pU.folder_name,
                     display_name :=
                       match (process_emotes_batch env.net es st1 pU.folder_name).1.head? with
                       | some fe => fe.owner.getD "Unknown"
                       | none => "Unknown",
                     emote_count := i32Cast (process_emotes_batch env.net es st1 pU.folder_name).1.length } },
         storage := (process_emotes_batch env.net es st1 pU.folder_name).2 }) := by
  unfold sync_user_emotes_handler
  dsimp only
  rw [hdel]
  dsimp only
  rw [hf]

/-- C5: a resync (trending or user) returns a failure envelope exactly when
the initial archive cleanup fails (store unconfigured or listing/delete
round trip failed) or the upstream fetch fails; on cleanup failure the
whole system state is returned unchanged (no ingestion was attempted) with
an empty payload; failures of the cache write, manifest write, or ledger
statements (the `cacheSetOk`, `manifestPutOk`, `dbDeleteOk`, `dbInsertOk`,
`userUpsertOk`, `stickerUpsertOk` oracles, universally quantified here)
never affect the reported success. -/
theorem c5_resync_failure_envelope :
    ∀ (env : SyncEnv) (pT : SyncTrendingRequest) (pU : SyncUserEmotesRequest) (s : SysState),
      ((sync_trending_handler env pT s).1.success = false ↔
        (s.storage.client = false ∨ env.listDeleteOk = false ∨ ∃ m, env.fetch = .error m)) ∧
      (s.storage.client = false ∨ env.listDeleteOk = false →
        (sync_trending_handler env pT s).2 = s ∧ (sync_trending_handler env pT s).1.emotes = []) ∧
      ((sync_user_emotes_handler env pU s).1.success = false ↔
        (s.storage.client = false ∨ env.listDeleteOk = false ∨ ∃ m, env.fetch = .error m)) ∧
      (s.storage.client = false ∨ env.listDeleteOk = false →
        (sync_user_emotes_handler env pU s).2 = s ∧
          (sync_user_emotes_handler env pU s).1.emotes = []) := by
  intro env pT pU s
  refine ⟨?_, ?_, ?_, ?_⟩
  · cases hdel : deleteBlobsUnder env.listDeleteOk s.storage
        ("trending/" ++ pT.period.getD "trending_weekly" ++ "/"
          ++ (if pT.animated_only.getD false then "animated" else "static") ++ "/") with
    | error msg =>
      rw [sync_trending_handler_cleanup_fail env pT s msg hdel]
      have hcases := deleteBlobsUnder_error_cases _ _ _ _ hdel
      constructor
      · intro _
        rcases hcases with h | h
        · exact Or.inl h
        · exact Or.inr (Or.inl h)
      · intro _
        rfl
    | ok st1 =>
      obtain ⟨hcl, hld⟩ := deleteBlobsUnder_ok_cases _ _ _ _ hdel
      cases hf : env.fetch with
      | error msg =>
        rw [sync_trending_handler_fetch_fail env pT s st1 msg hdel hf]
        exact ⟨fun _ => Or.inr (Or.inr ⟨msg, rfl⟩), fun _ => rfl⟩
      | ok es =>
        rw [sync_trending_handler_ok env pT s st1 es hdel hf]
        constructor
        · intro hfalse
          cases hfalse
        · rintro (h | h | ⟨m, hm⟩)
          · rw [h] at hcl; cases hcl
          · rw [h] at hld; cases hld
          · cases hm
  · intro hor
    obtain ⟨m, hdel⟩ := deleteBlobsUnder_fails env.listDeleteOk s.storage
      ("trending/" ++ pT.period.getD "trending_weekly" ++ "/"
        ++ (if pT.animated_only.getD false then "animated" else "static") ++ "/") hor
    rw [sync_trending_handler_cleanup_fail env pT s m hdel]
    exact ⟨rfl, rfl⟩
  · cases hdel : deleteBlobsUnder env.listDeleteOk s.storage (pU.folder_name ++ "/") with
    | error msg =>
      rw [sync_user_handler_cleanup_fail env pU s msg hdel]
      have hcases := deleteBlobsUnder_error_cases _ _ _ _ hdel
      constructor
      · intro _
        rcases hcases with h | h
        · exact Or.inl h
        · exact Or.inr (Or.inl h)
      · intro _
        rfl
    | ok st1 =>
      obtain ⟨hcl, hld⟩ := deleteBlobsUnder_ok_cases _ _ _ _ hdel
      cases hf : env.fetch with
      | error msg =>
        rw [sync_user_handler_fetch_fail env pU s st1 msg hdel hf]
        exact ⟨fun _ => Or.inr (Or.inr ⟨msg, rfl⟩), fun _ => rfl⟩
      | ok es =>
        rw [sync_user_handler_ok env pU s st1 es hdel hf]
        constructor
        · intro hfalse
          cases hfalse
        · rintro (h | h | ⟨m, hm⟩)
          · rw [h] at hcl; cases hcl
          · rw [h] at hld; cases hld
          · cases hm
  · intro hor
    obtain ⟨m, hdel⟩ := deleteBlobsUnder_fails env.listDeleteOk s.storage
      (pU.folder_name ++ "/") hor
    rw [sync_user_handler_cleanup_fail env pU s m hdel]
    exact ⟨rfl, rfl⟩

/-- Concrete system state for the C5 witness: blob store unconfigured, so
the cleanup step fails and both resyncs return the failure envelope with
the state unchanged. -/
def c5S : SysState :=
  { cache := [], db := { stickers := [], users := [] },
    storage := { client := false, account_name := "", container_name := "", blobs := [] } }

/-- Concrete resync oracle bundle for the C5 witness. -/
def c5Env : SyncEnv :=
  { net := { http := fun _ => none, putOk := fun _ => false },
    listDeleteOk := true, fetch := .ok [], cacheSetOk := true, manifestPutOk := true,
    dbDeleteOk := true, dbInsertOk := fun _ => true, userUpsertOk := true,
    stickerUpsertOk := fun _ => true }

/-- Concrete trending payload for the C5 witness. -/
def c5PT : SyncTrendingRequest := { period := none, animated_only := none, limit := none }

/-- Concrete user payload for the C5 witness. -/
def c5PU : SyncUserEmotesRequest := { user_id := "u", limit := none, folder_name := "folderU" }

/-- Witness for C5: the theorem applied at a concrete state where cleanup
fails (store unconfigured). -/
theorem c5_resync_failure_envelope_witness :
    ((sync_trending_handler c5Env c5PT c5S).1.success = false ↔
      (c5S.storage.client = false ∨ c5Env.listDeleteOk = false ∨ ∃ m, c5Env.fetch = .error m)) ∧
    (c5S.storage.client = false ∨ c5Env.listDeleteOk = false →
      (sync_trending_handler c5Env c5PT c5S).2 = c5S ∧
        (sync_trending_handler c5Env c5PT c5S).1.emotes = []) ∧
    ((sync_user_emotes_handler c5Env c5PU c5S).1.success = false ↔
      (c5S.storage.client = false ∨ c5Env.listDeleteOk = false ∨ ∃ m, c5Env.fetch = .error m)) ∧
    (c5S.storage.client = false ∨ c5Env.listDeleteOk = false →
      (sync_user_emotes_handler c5Env c5PU c5S).2 = c5S ∧
        (sync_user_emotes_handler c5Env c5PU c5S).1.emotes = []) :=
  c5_resync_failure_envelope c5Env c5PT c5PU c5S

theorem deleteBlobsUnder_succeeds (st : StorageState) (p : String) (hc : st.client = true) :
    deleteBlobsUnder true st p =
      .ok { st with blobs := st.blobs.filter (fun b => !(strStartsWith p b.1)) } := by
  unfold deleteBlobsUnder
  rw [hc]
  simp

theorem insertStickersGo_all_ok (okf : Nat → Bool) (folder : String)
    (hok : ∀ i, okf i = true) (emotes : List EmoteResponse) :
    ∀ (i0 : Nat) (db : List StickerRow),
      insertStickersGo okf folder i0 db emotes = db ++ emotes.map (rowOfEmote folder) := by
  induction emotes with
  | nil => intro i0 db; simp [insertStickersGo]
  | cons r rs ih =>
    intro i0 db
    unfold insertStickersGo
    rw [hok i0]
    simp only [if_true]
    rw [ih (i0 + 1) (db ++ [rowOfEmote folder r])]
    simp

theorem upsertSticker_preserves (db : List StickerRow) (row q : StickerRow)
    (hq : q ∈ db)
    (hne : (q.seven_tv_id == row.seven_tv_id && q.folder_name == row.folder_name) = false) :
    q ∈ upsertSticker db row := by
  unfold upsertSticker
  split_ifs with hany
  · refine List.mem_map.mpr ⟨q, hq, ?_⟩
    simp [hne]
  · exact List.mem_append.mpr (Or.inl hq)

theorem upsertStickersGo_preserves (okf : Nat → Bool) (folder : String)
    (emotes : List EmoteResponse) :
    ∀ (i0 : Nat) (db : List StickerRow) (q : StickerRow), q ∈ db →
      (∀ r ∈ emotes, ¬(q.seven_tv_id = r.emote_id ∧ q.folder_name = folder)) →
      q ∈ upsertStickersGo okf folder i0 db emotes := by
  induction emotes with
  | nil => intro i0 db q hq _; exact hq
  | cons r rs ih =>
    intro i0 db q hq hne
    unfold upsertStickersGo
    apply ih (i0 + 1)
    · by_cases hki : okf i0 = true
      · rw [hki]
        simp only [if_true]
        apply upsertSticker_preserves _ _ _ hq
        have := hne r (List.mem_cons.mpr (Or.inl rfl))
        unfold rowOfEmote
        simp only
        rw [Bool.and_eq_false_iff]
        by_cases h1 : q.seven_tv_id = r.emote_id
        · right
          exact beq_eq_false_iff_ne.mpr (fun h2 => this ⟨h1, h2⟩)
        · left
          exact beq_eq_false_iff_ne.mpr h1
      · rw [Bool.not_eq_true] at hki
        rw [hki]
        simp only [Bool.false_eq_true, if_false]
        exact hq
    · intro r1 hr1
      exact hne r1 (List.mem_cons.mpr (Or.inr hr1))

/-- C8: trending-sync replaces the folder's ledger rows wholesale — with
the delete and all inserts succeeding, the resulting `stickers` table is
exactly the old table minus every row of the trending folder, followed by
one inserted row per produced asset — whereas user-sync upserts rows keyed
by (external id, folder) without a prior delete, so any pre-existing row
of that folder whose external id is absent from the new batch is still
present, unchanged, afterwards. -/
theorem c8_ledger_replace_vs_upsert :
    (∀ (env : SyncEnv) (pT : SyncTrendingRequest) (s : SysState) (es : List Emote),
      s.storage.client = true → env.listDeleteOk = true → env.fetch = .ok es →
      env.dbDeleteOk = true → (∀ i, env.dbInsertOk i = true) →
      (sync_trending_handler env pT s).2.db.stickers =
        deleteStickersByFolder s.db.stickers
            ("trending_sync:" ++ pT.period.getD "trending_weekly" ++ ":"
              ++ boolStr (pT.animated_only.getD false)) ++
          (sync_trending_handler env pT s).1.emotes.map
            (rowOfEmote ("trending_sync:" ++ pT.period.getD "trending_weekly" ++ ":"
              ++ boolStr (pT.animated_only.getD false)))) ∧
    (∀ (env : SyncEnv) (pU : SyncUserEmotesRequest) (s : SysState) (es : List Emote),
      s.storage.client = true → env.listDeleteOk = true → env.fetch = .ok es →
      ∀ row ∈ s.db.stickers, row.folder_name = pU.folder_name →
        (∀ r ∈ (sync_user_emotes_handler env pU s).1.emotes, r.emote_id ≠ row.seven_tv_id) →
        row ∈ (sync_user_emotes_handler env pU s).2.db.stickers) := by
  constructor
  · intro env pT s es hc hld hf hdbd hins
    have hdel : deleteBlobsUnder env.listDeleteOk s.storage
        ("trending/" ++ pT.period.getD "trending_weekly" ++ "/"
          ++ (if pT.animated_only.getD false then "animated" else "static") ++ "/") =
        .ok { s.storage with blobs := s.storage.blobs.filter (fun b =>
          !(strStartsWith ("trending/" ++ pT.period.getD "trending_weekly" ++ "/"
            ++ (if pT.animated_only.getD false then "animated" else "static") ++ "/") b.1)) } := by
      rw [hld]
      exact deleteBlobsUnder_succeeds s.storage _ hc
    rw [sync_trending_handler_ok env pT s _ es hdel hf]
    dsimp only
    rw [hdbd]
    simp only [if_true]
    exact insertStickersGo_all_ok env.dbInsertOk _ hins _ 0 _
  · intro env pU s es hc hld hf row hrow hfold hne
    have hdel : deleteBlobsUnder env.listDeleteOk s.storage (pU.folder_name ++ "/") =
        .ok { s.storage with blobs := s.storage.blobs.filter (fun b =>
          !(strStartsWith (pU.folder_name ++ "/") b.1)) } := by
      rw [hld]
      exact deleteBlobsUnder_succeeds s.storage _ hc
    rw [sync_user_handler_ok env pU s _ es hdel hf] at hne ⊢
    dsimp only at hne ⊢
    apply upsertStickersGo_preserves env.stickerUpsertOk pU.folder_name _ 0 _ row hrow
    intro r hr ⟨h1, _⟩
    exact hne r hr (h1.symm ▸ rfl)

/-- Pre-existing ledger row for the C8 witness: lives in the user folder
but its external id is absent from the new batch. -/
def c8Row : StickerRow :=
  { seven_tv_id := "other", emote_name := "x", file_name := "x.webp", url := "u",
    owner_name := none, tags := none, animated := false, folder_name := "folderU" }

/-- Concrete system state for the C8 witness. -/
def c8S : SysState :=
  { cache := [], db := { stickers := [c8Row], users := [] },
    storage := { client := true, account_name := "a", container_name := "c", blobs := [] } }

/-- Concrete resync oracle bundle for the C8 witness. -/
def c8Env : SyncEnv :=
  { net := { http := fun _ => none, putOk := fun _ => true },
    listDeleteOk := true, fetch := .ok [], cacheSetOk := true, manifestPutOk := true,
    dbDeleteOk := true, dbInsertOk := fun _ => true, userUpsertOk := true,
    stickerUpsertOk := fun _ => true }

/-- Concrete trending payload for the C8 witness. -/
def c8PT : SyncTrendingRequest := { period := none, animated_only := none, limit := none }

/-- Concrete user payload for the C8 witness. -/
def c8PU : SyncUserEmotesRequest := { user_id := "u1", limit := none, folder_name := "folderU" }

/-- Witness for C8: the theorem applied at a concrete state with a
pre-existing row whose id is absent from the (empty) new batch. -/
theorem c8_ledger_replace_vs_upsert_witness :
    ((sync_trending_handler c8Env c8PT c8S).2.db.stickers =
      deleteStickersByFolder c8S.db.stickers
          ("trending_sync:" ++ c8PT.period.getD "trending_weekly" ++ ":"
            ++ boolStr (c8PT.animated_only.getD false)) ++
        (sync_trending_handler c8Env c8PT c8S).1.emotes.map
          (rowOfEmote ("trending_sync:" ++ c8PT.period.getD "trending_weekly" ++ ":"
            ++ boolStr (c8PT.animated_only.getD false)))) ∧
    c8Row ∈ (sync_user_emotes_handler c8Env c8PU c8S).2.db.stickers :=
  ⟨c8_ledger_replace_vs_upsert.1 c8Env c8PT c8S [] rfl rfl rfl rfl (fun _ => rfl),
   c8_ledger_replace_vs_upsert.2 c8Env c8PU c8S [] rfl rfl rfl c8Row (by decide) rfl (by decide)⟩

theorem upload_blob_ok_of_putOk (st : StorageState) (d : BlobData) (bn ct : String)
    (hc : st.client = true) :
    ∃ u st', upload_blob true st d bn ct = .ok (u, st') := by
  by_cases hp : blobPresent st bn = true
  · exact ⟨blobUrl st bn, st, by unfold upload_blob; rw [hc, hp]; simp⟩
  · refine ⟨blobUrl st bn, { st with blobs := st.blobs ++ [(bn, ⟨d, ct⟩)] }, ?_⟩
    unfold upload_blob
    rw [hc]
    rw [Bool.not_eq_true] at hp
    rw [hp]
    simp

/-- C4 as amended: after a successful trending-sync the archive prefix
`{folder}/` holds exactly the blobs of the newly produced assets plus the
manifest `{folder}/_metadata.json`; after a successful user-sync it holds
exactly the asset blobs and nothing else — the user-sync path writes no
manifest blob. -/
theorem c4_archive_exact_after_resync :
    (∀ (env : SyncEnv) (pT : SyncTrendingRequest) (s : SysState) (es : List Emote),
      s.storage.client = true → env.listDeleteOk = true → env.fetch = .ok es →
      env.manifestPutOk = true →
      ∀ name,
        ((((sync_trending_handler env pT s).2.storage.blobs.lookup name).isSome = true ∧
          strStartsWith ("trending/" ++ pT.period.getD "trending_weekly" ++ "/"
            ++ (if pT.animated_only.getD false then "animated" else "static") ++ "/") name = true) ↔
        (name = "trending/" ++ pT.period.getD "trending_weekly" ++ "/"
            ++ (if pT.animated_only.getD false then "animated" else "static") ++ "/_metadata.json" ∨
          ∃ r ∈ (sync_trending_handler env pT s).1.emotes,
            name = "trending/" ++ pT.period.getD "trending_weekly" ++ "/"
              ++ (if pT.animated_only.getD false then "animated" else "static") ++ "/" ++ r.file_name))) ∧
    (∀ (env : SyncEnv) (pU : SyncUserEmotesRequest) (s : SysState) (es : List Emote),
      s.storage.client = true → env.listDeleteOk = true → env.fetch = .ok es →
      ∀ name,
        ((((sync_user_emotes_handler env pU s).2.storage.blobs.lookup name).isSome = true ∧
          strStartsWith (pU.folder_name ++ "/") name = true) ↔
        (∃ r ∈ (sync_user_emotes_handler env pU s).1.emotes,
          name = pU.folder_name ++ "/" ++ r.file_name))) := by
  constructor
  · intro env pT s es hc hld hf hman name
    have hdel : deleteBlobsUnder env.listDeleteOk s.storage
        ("trending/" ++ pT.period.getD "trending_weekly" ++ "/"
          ++ (if pT.animated_only.getD false then "animated" else "static") ++ "/") =
        .ok { s.storage with blobs := s.storage.blobs.filter (fun b =>
          !(strStartsWith ("trending/" ++ pT.period.getD "trending_weekly" ++ "/"
            ++ (if pT.animated_only.getD false then "animated" else "static") ++ "/") b.1)) } := by
      rw [hld]
      exact deleteBlobsUnder_succeeds s.storage _ hc
    rw [sync_trending_handler_ok env pT s _ es hdel hf]
    dsimp only
    obtain ⟨hcl2, _, _, hlk2⟩ := process_emotes_batch_effect env.net
      ("trending/" ++ pT.period.getD "trending_weekly" ++ "/"
        ++ (if pT.animated_only.getD false then "animated" else "static")) es
      { s.storage with blobs := s.storage.blobs.filter (fun b =>
        !(strStartsWith ("trending/" ++ pT.period.getD "trending_weekly" ++ "/"
          ++ (if pT.animated_only.getD false then "animated" else "static") ++ "/") b.1)) }
    rw [hman]
    obtain ⟨u3, st3, hub⟩ := upload_blob_ok_of_putOk
      (process_emotes_batch env.net es
        { s.storage with blobs := s.storage.blobs.filter (fun b =>
          !(strStartsWith ("trending/" ++ pT.period.getD "trending_weekly" ++ "/"
            ++ (if pT.animated_only.getD false then "animated" else "static") ++ "/") b.1)) }
        ("trending/" ++ pT.period.getD "trending_weekly" ++ "/"
          ++ (if pT.animated_only.getD false then "animated" else "static"))).2
      (.json (process_emotes_batch env.net es
        { s.storage with blobs := s.storage.blobs.filter (fun b =>
          !(strStartsWith ("trending/" ++ pT.period.getD "trending_weekly" ++ "/"
            ++ (if pT.animated_only.getD false then "animated" else "static") ++ "/") b.1)) }
        ("trending/" ++ pT.period.getD "trending_weekly" ++ "/"
          ++ (if pT.animated_only.getD false then "animated" else "static"))).1)
      ("trending/" ++ pT.period.getD "trending_weekly" ++ "/"
        ++ (if pT.animated_only.getD false then "animated" else "static") ++ "/_metadata.json")
      "application/json" (by rw [hcl2]; exact hc)
    rw [hub]
    dsimp only
    obtain ⟨_, _, _, _, _, _, hlk3⟩ := upload_blob_ok_spec _ _ _ _ _ _ _ hub
    have hsplit : ("trending/" ++ pT.period.getD "trending_weekly" ++ "/"
        ++ (if pT.animated_only.getD false then "animated" else "static")) ++ "/_metadata.json" =
        (("trending/" ++ pT.period.getD "trending_weekly" ++ "/"
          ++ (if pT.animated_only.getD false then "animated" else "static")) ++ "/")
          ++ "_metadata.json" := by
      rw [String.append_assoc _ ("/" : String) "_metadata.json"]
      congr 1
    have hfil := lookup_filter_key s.storage.blobs (fun k =>
      !(strStartsWith ("trending/" ++ pT.period.getD "trending_weekly" ++ "/"
        ++ (if pT.animated_only.getD false then "animated" else "static") ++ "/") k)) name
    constructor
    · rintro ⟨hp, hpre⟩
      rcases (hlk3 name).mp hp with hp2 | hp2
      · rcases (hlk2 name).mp hp2 with hp1 | hp1
        · exfalso
          simp only [hfil] at hp1
          by_cases hb : strStartsWith ("trending/" ++ pT.period.getD "trending_weekly" ++ "/"
              ++ (if pT.animated_only.getD false then "animated" else "static") ++ "/") name = true
          · rw [hb] at hp1
            simp at hp1
          · exact hb hpre
        · exact Or.inr hp1
      · exact Or.inl hp2
    · rintro (rfl | ⟨r, hr, rfl⟩)
      · constructor
        · exact (hlk3 _).mpr (Or.inr rfl)
        · rw [hsplit]
          exact strStartsWith_append _ _
      · constructor
        · exact (hlk3 _).mpr (Or.inl ((hlk2 _).mpr (Or.inr ⟨r, hr, rfl⟩)))
        · exact strStartsWith_append _ _
  · intro env pU s es hc hld hf name
    have hdel : deleteBlobsUnder env.listDeleteOk s.storage (pU.folder_name ++ "/") =
        .ok { s.storage with blobs := s.storage.blobs.filter (fun b =>
          !(strStartsWith (pU.folder_name ++ "/") b.1)) } := by
      rw [hld]
      exact deleteBlobsUnder_succeeds s.storage _ hc
    rw [sync_user_handler_ok env pU s _ es hdel hf]
    dsimp only
    obtain ⟨_, _, _, hlk2⟩ := process_emotes_batch_effect env.net pU.folder_name es
      { s.storage with blobs := s.storage.blobs.filter (fun b =>
        !(strStartsWith (pU.folder_name ++ "/") b.1)) }
    have hfil := lookup_filter_key s.storage.blobs
      (fun k => !(strStartsWith (pU.folder_name ++ "/") k)) name
    constructor
    · rintro ⟨hp, hpre⟩
      rcases (hlk2 name).mp hp with hp1 | hp1
      · exfalso
        simp only [hfil] at hp1
        by_cases hb : strStartsWith (pU.folder_name ++ "/") name = true
        · rw [hb] at hp1
          simp at hp1
        · exact hb hpre
      · exact hp1
    · rintro ⟨r, hr, rfl⟩
      constructor
      · exact (hlk2 _).mpr (Or.inr ⟨r, hr, rfl⟩)
      · exact strStartsWith_append _ _

/-- Concrete variant for the C4 counterexample run. -/
def c4Img : Image :=
  { url := "https://i/e", mime := "image/webp", size := 1, scale := 1,
    width := 8, frame_count := 1 }

/-- Concrete raw record for the C4 counterexample run. -/
def c4Emote : Emote :=
  { id := "id1", default_name := some "Nm", name := none, owner := none,
    images := some [c4Img], host := none, animated := none }

/-- Concrete resync oracle bundle for the C4 counterexample run. -/
def c4Env : SyncEnv :=
  { net := { http := fun u => if u = "https://i/e" then some [9] else none,
             putOk := fun _ => true },
    listDeleteOk := true, fetch := .ok [c4Emote], cacheSetOk := true, manifestPutOk := true,
    dbDeleteOk := true, dbInsertOk := fun _ => true, userUpsertOk := true,
    stickerUpsertOk := fun _ => true }

/-- Concrete system state for the C4 counterexample run. -/
def c4S : SysState :=
  { cache := [], db := { stickers := [], users := [] },
    storage := { client := true, account_name := "a", container_name := "c", blobs := [] } }

/-- Concrete user payload for the C4 counterexample run. -/
def c4PU : SyncUserEmotesRequest := { user_id := "u1", limit := none, folder_name := "uf" }

/-- C4 counterexample: a fully successful user-sync (success envelope, one
produced asset) leaves the archive prefix `uf/` holding exactly the asset
blob and no `uf/_metadata.json` manifest — the user-sync path never writes
one, so the prefix does not contain "the blobs of the newly produced
assets plus the manifest blob" as claimed. -/
theorem c4_counterexample :
    (sync_user_emotes_handler c4Env c4PU c4S).1.success = true ∧
    (sync_user_emotes_handler c4Env c4PU c4S).1.emotes ≠ [] ∧
    ((sync_user_emotes_handler c4Env c4PU c4S).2.storage.blobs.lookup "uf/_metadata.json") = none ∧
    (sync_user_emotes_handler c4Env c4PU c4S).2.storage.blobs.map Prod.fst = ["uf/Nm_id1.webp"] := by
  refine ⟨by decide, by decide, by decide, by decide⟩

/-- Concrete trending payload for the C4 witness run. -/
def c4PT : SyncTrendingRequest := { period := none, animated_only := none, limit := none }

/-- Manifest blob name probed by the C4 witness. -/
def c4NameT : String :=
  "trending/" ++ c4PT.period.getD "trending_weekly" ++ "/"
    ++ (if c4PT.animated_only.getD false then "animated" else "static") ++ "/_metadata.json"

/-- Asset blob name probed by the C4 witness. -/
def c4NameU : String := "uf/Nm_id1.webp"

/-- Witness for C4's amended theorem: applied at a concrete trending run
(checking the manifest name) and a concrete user run (checking the asset
blob name). -/
theorem c4_archive_exact_after_resync_witness :
    ((((sync_trending_handler c4Env c4PT c4S).2.storage.blobs.lookup c4NameT).isSome = true ∧
        strStartsWith ("trending/" ++ c4PT.period.getD "trending_weekly" ++ "/"
          ++ (if c4PT.animated_only.getD false then "animated" else "static") ++ "/") c4NameT = true) ↔
      (c4NameT = "trending/" ++ c4PT.period.getD "trending_weekly" ++ "/"
          ++ (if c4PT.animated_only.getD false then "animated" else "static") ++ "/_metadata.json" ∨
        ∃ r ∈ (sync_trending_handler c4Env c4PT c4S).1.emotes,
          c4NameT = "trending/" ++ c4PT.period.getD "trending_weekly" ++ "/"
            ++ (if c4PT.animated_only.getD false then "animated" else "static") ++ "/" ++ r.file_name)) ∧
    ((((sync_user_emotes_handler c4Env c4PU c4S).2.storage.blobs.lookup c4NameU).isSome = true ∧
        strStartsWith (c4PU.folder_name ++ "/") c4NameU = true) ↔
      ∃ r ∈ (sync_user_emotes_handler c4Env c4PU c4S).1.emotes,
        c4NameU = c4PU.folder_name ++ "/" ++ r.file_name) :=
  ⟨c4_archive_exact_after_resync.1 c4Env c4PT c4S [c4Emote] rfl rfl rfl rfl c4NameT,
   c4_archive_exact_after_resync.2 c4Env c4PU c4S [c4Emote] rfl rfl rfl c4NameU⟩

theorem synced_handler_fallback (env : ReadEnv) (params : TrendingQuery) (s : SysState)
    (hdb : env.dbOk = false ∨
      stickersForFolder s.db.stickers
        ("trending_sync:" ++ params.period.getD "trending_weekly" ++ ":"
          ++ boolStr (params.animated_only.getD false || params.emote_type == some "animated"))
        (usizeCast (params.limit.getD 20)) = []) :
    synced_trending_emotes_handler env params s =
      (match get_from_cache env.cacheGetOk s.cache
          (get_trending_sync_key (params.period.getD "trending_weekly")
            (params.animated_only.getD false || params.emote_type == some "animated")) with
       | some (.emoteList all_emotes) =>
         return_paginated_response all_emotes (usizeCast (params.limit.getD 20))
       | _ => errorResponse "No synced data found in DB or Cache. Please run admin sync.") := by
  unfold synced_trending_emotes_handler
  dsimp only
  cases hdbo : env.dbOk with
  | false => rfl
  | true =>
    rcases hdb with hdb | hdb
    · rw [hdbo] at hdb
      cases hdb
    · rw [hdb]
      rfl

instance {e a : Type} [DecidableEq e] [DecidableEq a] : DecidableEq (Except e a) := fun x y =>
  match x, y with
  | .ok v, .ok w =>
    if h : v = w then isTrue (by rw [h]) else isFalse (by intro hv; cases hv; exact h rfl)
  | .error v, .error w =>
    if h : v = w then isTrue (by rw [h]) else isFalse (by intro hv; cases hv; exact h rfl)
  | .ok _, .error _ => isFalse (by intro hv; cases hv)
  | .error _, .ok _ => isFalse (by intro hv; cases hv)

/-- Manifest record stored in the archive for the C1 counterexample. -/
def c1Resp : EmoteResponse :=
  { file_name := "A_x.webp", url := "u", emote_id := "x", emote_name := "A",
    owner := none, animated := some false, scale := some 1, mime := some "image/webp" }

/-- Manifest blob stored in the archive for the C1 counterexample. -/
def c1Blob : BlobRec := ⟨.json [c1Resp], "application/json"⟩

/-- System state for the C1 counterexample: ledger empty, cache empty,
archive holding a deserializable manifest for the default trending folder. -/
def c1S : SysState :=
  { cache := [],
    db := { stickers := [], users := [] },
    storage := { client := true, account_name := "a", container_name := "c",
                 blobs := [("trending/trending_weekly/static/_metadata.json", c1Blob)] } }

/-- Read oracle for the C1 counterexample: both stores reachable. -/
def c1Env : ReadEnv := { dbOk := true, cacheGetOk := true }

/-- Query parameters for the C1 counterexample (all defaults). -/
def c1Params : TrendingQuery :=
  { period := none, limit := none, animated_only := none, emote_type := none }

/-- C1 counterexample: with the ledger empty for the folder, the cache
empty, and a deserializable manifest present in the archive at
`trending/trending_weekly/static/_metadata.json`, the synced read returns
the no-synced-data failure (not the manifest's records), and a subsequent
direct cache lookup for the sync key still misses — no read-repair ever
happens because the handler never consults the archive. -/
theorem c1_counterexample :
    (synced_trending_emotes_handler c1Env c1Params c1S).success = false ∧
    (synced_trending_emotes_handler c1Env c1Params c1S).emotes = [] ∧
    (synced_trending_emotes_handler c1Env c1Params c1S).message =
      some "No synced data found in DB or Cache. Please run admin sync." ∧
    get_blob_content c1S.storage "trending/trending_weekly/static/_metadata.json" =
      .ok (.json [c1Resp]) ∧
    get_from_cache true c1S.cache (get_trending_sync_key "trending_weekly" false) = none := by
  refine ⟨by decide, by decide, by decide, by decide, by decide⟩

/-- C1 as amended: the synced read walks ledger → cache only. When the
ledger query errors or yields no rows and the cached sync-key entry is
absent or not an emote list, the handler returns the no-synced-data
failure envelope; the archive manifest is never fetched and nothing is
written back into the cache — the response is entirely independent of the
archive contents (and the handler, being read-only, leaves every store
unchanged). -/
theorem c1_no_archive_fallback :
    ∀ (env : ReadEnv) (params : TrendingQuery) (s : SysState),
      (env.dbOk = false ∨
        stickersForFolder s.db.stickers
          ("trending_sync:" ++ params.period.getD "trending_weekly" ++ ":"
            ++ boolStr (params.animated_only.getD false || params.emote_type == some "animated"))
          (usizeCast (params.limit.getD 20)) = []) →
      (∀ all_emotes, get_from_cache env.cacheGetOk s.cache
          (get_trending_sync_key (params.period.getD "trending_weekly")
            (params.animated_only.getD false || params.emote_type == some "animated"))
          ≠ some (.emoteList all_emotes)) →
      synced_trending_emotes_handler env params s =
        errorResponse "No synced data found in DB or Cache. Please run admin sync." ∧
      (∀ st st' : StorageState,
        synced_trending_emotes_handler env params { s with storage := st } =
          synced_trending_emotes_handler env params { s with storage := st' }) := by
  intro env params s hdb hcache
  constructor
  · rw [synced_handler_fallback env params s hdb]
    cases hc : get_from_cache env.cacheGetOk s.cache
        (get_trending_sync_key (params.period.getD "trending_weekly")
          (params.animated_only.getD false || params.emote_type == some "animated")) with
    | none => rfl
    | some v =>
      cases v with
      | resp r => rfl
      | emoteList all_emotes => exact absurd hc (hcache all_emotes)
  · intro st st'
    rfl

/-- Witness for C1's amended theorem: applied at the counterexample state
(ledger empty, cache empty, manifest present in the archive), with the
archive-independence conjunct instantiated at two different archives. -/
theorem c1_no_archive_fallback_witness :
    synced_trending_emotes_handler c1Env c1Params c1S =
      errorResponse "No synced data found in DB or Cache. Please run admin sync." ∧
    synced_trending_emotes_handler c1Env c1Params
        { c1S with storage :=
          { client := true, account_name := "a", container_name := "c", blobs := [] } } =
      synced_trending_emotes_handler c1Env c1Params { c1S with storage := c1S.storage } :=
  ⟨(c1_no_archive_fallback c1Env c1Params c1S (Or.inr (by decide))
      (fun all_emotes h => Option.noConfusion h)).1,
   (c1_no_archive_fallback c1Env c1Params c1S (Or.inr (by decide))
      (fun all_emotes h => Option.noConfusion h)).2
     { client := true, account_name := "a", container_name := "c", blobs := [] } c1S.storage⟩

/-- C7: `return_paginated_response` always serves the fixed window
`[0, limit)` of the stored collection — exactly the first
`min(limit, n)` assets in stored order — with `page = 1` and
`hasNextPage = false` regardless of how many assets remain; and on the
synced read path, a ledger miss plus a cached sync-key hit is answered by
exactly that function applied to the cached collection and the requested
limit. -/
theorem c7_fixed_window_pagination :
    (∀ (all_emotes : List EmoteResponse) (limit : Nat),
      (return_paginated_response all_emotes limit).emotes = all_emotes.take limit ∧
      (return_paginated_response all_emotes limit).emotes.length = min limit all_emotes.length ∧
      (return_paginated_response all_emotes limit).success = true ∧
      (return_paginated_response all_emotes limit).page = some 1 ∧
      (return_paginated_response all_emotes limit).total_pages = some 1 ∧
      (return_paginated_response all_emotes limit).has_next_page = some false ∧
      (return_paginated_response all_emotes limit).cached = some true) ∧
    (∀ (env : ReadEnv) (params : TrendingQuery) (s : SysState)
        (all_emotes : List EmoteResponse),
      (env.dbOk = false ∨
        stickersForFolder s.db.stickers
          ("trending_sync:" ++ params.period.getD "trending_weekly" ++ ":"
            ++ boolStr (params.animated_only.getD false || params.emote_type == some "animated"))
          (usizeCast (params.limit.getD 20)) = []) →
      get_from_cache env.cacheGetOk s.cache
          (get_trending_sync_key (params.period.getD "trending_weekly")
            (params.animated_only.getD false || params.emote_type == some "animated")) =
        some (.emoteList all_emotes) →
      synced_trending_emotes_handler env params s =
        return_paginated_response all_emotes (usizeCast (params.limit.getD 20))) := by
  constructor
  · intro all_emotes limit
    have hslice : (return_paginated_response all_emotes limit).emotes =
        all_emotes.take limit := by
      unfold return_paginated_response
      dsimp only
      by_cases h : 0 < all_emotes.length
      · rw [if_pos h]
        simp only [Nat.zero_add]
        rcases le_or_lt limit all_emotes.length with hle | hlt
        · rw [min_eq_left hle]
        · rw [min_eq_right (le_of_lt hlt)]
          rw [List.take_length]
          exact (List.take_of_length_le (le_of_lt hlt)).symm
      · rw [if_neg h]
        have h0 : all_emotes.length = 0 := by omega
        rw [List.length_eq_zero.mp h0]
        simp
    refine ⟨hslice, ?_, rfl, rfl, rfl, rfl, rfl⟩
    rw [hslice, List.length_take]
  · intro env params s all_emotes hdb hcache
    rw [synced_handler_fallback env params s hdb]
    rw [hcache]

/-- Cached collection for the C7 witness: three stored assets. -/
def c7All : List EmoteResponse :=
  [ { file_name := "a.webp", url := "ua", emote_id := "a", emote_name := "A",
      owner := none, animated := some false, scale := some 1, mime := some "image/webp" },
    { file_name := "b.webp", url := "ub", emote_id := "b", emote_name := "B",
      owner := none, animated := some false, scale := some 1, mime := some "image/webp" },
    { file_name := "c.webp", url := "uc", emote_id := "c", emote_name := "C",
      owner := none, animated := some false, scale := some 1, mime := some "image/webp" } ]

/-- System state for the C7 witness: ledger empty, cache holding the
sync-key collection. -/
def c7S : SysState :=
  { cache := [(get_trending_sync_key "trending_weekly" false, .emoteList c7All)],
    db := { stickers := [], users := [] },
    storage := { client := true, account_name := "a", container_name := "c", blobs := [] } }

/-- Read oracle for the C7 witness. -/
def c7Env : ReadEnv := { dbOk := true, cacheGetOk := true }

/-- Query parameters for the C7 witness: limit 2 against 3 stored assets. -/
def c7Params : TrendingQuery :=
  { period := none, limit := some 2, animated_only := none, emote_type := none }

/-- Witness for C7: window properties at limit 2 over 3 assets, and the
synced read at the concrete cached state. -/
theorem c7_fixed_window_pagination_witness :
    ((return_paginated_response c7All 2).emotes = c7All.take 2 ∧
      (return_paginated_response c7All 2).emotes.length = min 2 c7All.length ∧
      (return_paginated_response c7All 2).success = true ∧
      (return_paginated_response c7All 2).page = some 1 ∧
      (return_paginated_response c7All 2).total_pages = some 1 ∧
      (return_paginated_response c7All 2).has_next_page = some false ∧
      (return_paginated_response c7All 2).cached = some true) ∧
    synced_trending_emotes_handler c7Env c7Params c7S =
      return_paginated_response c7All (usizeCast (c7Params.limit.getD 20)) :=
  ⟨c7_fixed_window_pagination.1 c7All 2,
   c7_fixed_window_pagination.2 c7Env c7Params c7S c7All (Or.inr (by decide)) (by decide)⟩

/-- Task result function for the C9 schedules: tags each record's pipeline
outcome with its id so completions are distinguishable. -/
def c9f : Emote → Option EmoteResponse := fun e =>
  some { file_name := e.id, url := "", emote_id := e.id, emote_name := "",
         owner := none, animated := none, scale := none, mime := none }

/-- First record of the C9 batch. -/
def c9E1 : Emote :=
  { id := "a", default_name := none, name := none, owner := none, images := none,
    host := none, animated := none }

/-- Second record of the C9 batch. -/
def c9E2 : Emote :=
  { id := "b", default_name := none, name := none, owner := none, images := none,
    host := none, animated := none }

/-- The two-record batch driven through the C9 schedules. -/
def c9Emotes : List Emote := [c9E1, c9E2]

/-- C9: in the `buffer_unordered`-based model of `process_emotes_batch`
(`processBatchConcurrent`, width literally 5 as in the source), every
schedule — hence every batch size — keeps at most 5 record pipelines in
flight; and the completion order is not determined by the input order: two
admissible schedules over the same two-record batch produce the two
different output orders, one of which differs from the input-order map. -/
theorem c9_bounded_unordered_concurrency :
    (∀ (f : Emote → Option EmoteResponse) (sched : List Nat) (emotes : List Emote),
      (processBatchConcurrent f sched emotes).inflight.length ≤ 5) ∧
    ((processBatchConcurrent c9f [0, 0] c9Emotes).output = [c9f c9E1, c9f c9E2] ∧
      (processBatchConcurrent c9f [1, 0] c9Emotes).output = [c9f c9E2, c9f c9E1] ∧
      (processBatchConcurrent c9f [1, 0] c9Emotes).output ≠
        (processBatchConcurrent c9f [0, 0] c9Emotes).output ∧
      (processBatchConcurrent c9f [1, 0] c9Emotes).output ≠ c9Emotes.map c9f) := by
  constructor
  · intro f sched emotes
    exact runBufferUnordered_width 5 f sched
      { pending := emotes, inflight := [], output := [] } (by simp)
  · refine ⟨by decide, by decide, by decide, by decide⟩
